import Mathlib

set_option maxRecDepth 100000

/-!
Verification model of the job-application pipeline
(`agents.py`, `app.py`, `utils.py`).

The development embeds, as executable Lean definitions:

* a JSON value type together with a serializer (`json_dumps`) and parser
  (`json_loads`) modelling the Python standard-library pair
  `json.dumps` / `json.loads` as used by this program (default separators
  `", "` and `": "`, `ensure_ascii=True` escaping; floating-point literals
  never occur in any payload of this program and are outside the model);
* the Gemini gateway `call_gemini_with_fallback` and the four agents of
  `agents.py`, with provider behaviour supplied by an oracle
  (`GenAIEnv`), since the network call itself is an external collaborator;
* the session state, the `append_log` metrics sink, the log rendering
  window, and the workflow of `app.py` (`run_workflow`), including the
  dispatch loop, with transport results supplied by an oracle;
* the `utils.py` helpers: PDF text extraction over an oracle describing
  the outcome of the external PDF library, and the SMTP send outcome.

Time (`time.sleep`) is modelled by recording the requested delay, and UI
output (`st.warning`, `st.error`) by lists of emitted messages.
-/

/-! ## JSON values

Mutual inductive (rather than nested) so that structural recursion and
`deriving DecidableEq` are available. `arr`/`obj` children keep insertion
order, as Python lists and dicts do. -/

mutual

inductive Json where
  | str (s : String)
  | num (n : Int)
  | bool (b : Bool)
  | null
  | arr (xs : JsonList)
  | obj (ms : JsonMembers)
  deriving DecidableEq, Repr

inductive JsonList where
  | nil
  | cons (hd : Json) (tl : JsonList)
  deriving DecidableEq, Repr

inductive JsonMembers where
  | nil
  | cons (k : String) (v : Json) (tl : JsonMembers)
  deriving DecidableEq, Repr

end

def JsonList.toList : JsonList → List Json
  | .nil => []
  | .cons hd tl => hd :: tl.toList

def JsonList.length (xs : JsonList) : Nat := xs.toList.length

/-! ## Character classes and hex digits -/

def isWsCh (c : Char) : Bool := c = ' ' || c = '\n' || c = '\t' || c = '\r'

def skipWs : List Char → List Char
  | [] => []
  | c :: cs => if isWsCh c then skipWs cs else c :: cs

def isDigitCh (c : Char) : Bool := 48 ≤ c.toNat && c.toNat ≤ 57

def hexDigitVal (c : Char) : Option Nat :=
  if 48 ≤ c.toNat ∧ c.toNat ≤ 57 then some (c.toNat - 48)
  else if 97 ≤ c.toNat ∧ c.toNat ≤ 102 then some (c.toNat - 87)
  else if 65 ≤ c.toNat ∧ c.toNat ≤ 70 then some (c.toNat - 55)
  else none

def decodeHex4 (a b c d : Char) : Option Nat :=
  match hexDigitVal a, hexDigitVal b, hexDigitVal c, hexDigitVal d with
  | some x, some y, some z, some w => some (((x * 16 + y) * 16 + z) * 16 + w)
  | _, _, _, _ => none

/-- Lower-case hex digit, as emitted by Python `json.dumps`. -/
def hexDigitChar (n : Nat) : Char :=
  if n < 10 then Char.ofNat (48 + n) else Char.ofNat (87 + n)

def hex4Chars (n : Nat) : List Char :=
  [hexDigitChar (n / 4096 % 16), hexDigitChar (n / 256 % 16),
   hexDigitChar (n / 16 % 16), hexDigitChar (n % 16)]

/-! ## Serializer (model of `json.dumps` with its default options) -/

/-- String escaping of `json.dumps` with `ensure_ascii=True`: short escapes
for the two delimiters and the named control characters, `\uXXXX` for other
control and all non-ASCII characters, surrogate pairs beyond the BMP. -/
def escapeChar (c : Char) : List Char :=
  if c = '\"' then ['\\', '\"']
  else if c = '\\' then ['\\', '\\']
  else if c = '\n' then ['\\', 'n']
  else if c = '\t' then ['\\', 't']
  else if c = '\r' then ['\\', 'r']
  else if c = Char.ofNat 8 then ['\\', 'b']
  else if c = Char.ofNat 12 then ['\\', 'f']
  else if c.toNat < 32 then '\\' :: 'u' :: hex4Chars c.toNat
  else if c.toNat < 127 then [c]
  else if c.toNat < 65536 then '\\' :: 'u' :: hex4Chars c.toNat
  else ('\\' :: 'u' :: hex4Chars (55296 + (c.toNat - 65536) / 1024)) ++
       ('\\' :: 'u' :: hex4Chars (56320 + (c.toNat - 65536) % 1024))

def escapeChars : List Char → List Char
  | [] => []
  | c :: cs => escapeChar c ++ escapeChars cs

def digitChar (n : Nat) : Char := Char.ofNat (48 + n)

def natChars (n : Nat) : List Char :=
  if n < 10 then [digitChar n]
  else natChars (n / 10) ++ [digitChar (n % 10)]
termination_by n
decreasing_by exact Nat.div_lt_self (by omega) (by omega)

def intChars (i : Int) : List Char :=
  if i < 0 then '-' :: natChars (-i).toNat else natChars i.toNat

mutual

def dumpsV : Json → List Char
  | .str s => '\"' :: (escapeChars s.data ++ ['\"'])
  | .num i => intChars i
  | .bool true => ['t', 'r', 'u', 'e']
  | .bool false => ['f', 'a', 'l', 's', 'e']
  | .null => ['n', 'u', 'l', 'l']
  | .arr xs => '[' :: dumpsL xs
  | .obj ms => '\x7b' :: dumpsM ms

def dumpsL : JsonList → List Char
  | .nil => [']']
  | .cons hd tl => dumpsV hd ++ dumpsLTail tl

def dumpsLTail : JsonList → List Char
  | .nil => [']']
  | .cons hd tl => ',' :: ' ' :: (dumpsV hd ++ dumpsLTail tl)

def dumpsM : JsonMembers → List Char
  | .nil => ['\x7d']
  | .cons k v tl => '\"' :: (escapeChars k.data ++ ('\"' :: ':' :: ' ' :: (dumpsV v ++ dumpsMTail tl)))

def dumpsMTail : JsonMembers → List Char
  | .nil => ['\x7d']
  | .cons k v tl =>
      ',' :: ' ' :: '\"' :: (escapeChars k.data ++ ('\"' :: ':' :: ' ' :: (dumpsV v ++ dumpsMTail tl)))

end

def json_dumps (v : Json) : String := String.mk (dumpsV v)

/-! ## Parser (model of `json.loads`)

Strict-mode decoding: raw control characters inside strings are rejected,
escapes are decoded (including surrogate pairs). A `none` result models a
raised `json.JSONDecodeError`. -/

def consStr (c : Char) : Option (List Char × List Char) → Option (List Char × List Char)
  | some (s, r) => some (c :: s, r)
  | none => none

/-- Decode the second `\uXXXX` of a surrogate pair (`hi` is the already
decoded high surrogate). Lean `Char` cannot carry lone surrogates, so the
model rejects them; no payload of this program contains any. -/
def parseLowSur (hi : Nat) : List Char → Option (Char × List Char)
  | e1 :: e2 :: a2 :: b2 :: c3 :: d2 :: rest4 =>
    if e1 = '\\' ∧ e2 = 'u' then
      match decodeHex4 a2 b2 c3 d2 with
      | none => none
      | some m =>
        if 56320 ≤ m ∧ m < 57344 then
          some (Char.ofNat (65536 + (hi - 55296) * 1024 + (m - 56320)), rest4)
        else none
    else none
  | _ => none

/-- Decode a `uXXXX` escape payload (the `\u` prefix already consumed). -/
def parseU : List Char → Option (Char × List Char)
  | a :: b :: c2 :: d :: rest3 =>
    match decodeHex4 a b c2 d with
    | none => none
    | some n =>
      if 55296 ≤ n ∧ n < 56320 then parseLowSur n rest3
      else if 56320 ≤ n ∧ n < 57344 then none
      else some (Char.ofNat n, rest3)
  | _ => none

/-- Decode one escape sequence (the backslash already consumed). -/
def parseEscape : List Char → Option (Char × List Char)
  | '\"' :: rest2 => some ('\"', rest2)
  | '\\' :: rest2 => some ('\\', rest2)
  | '/' :: rest2 => some ('/', rest2)
  | 'n' :: rest2 => some ('\n', rest2)
  | 't' :: rest2 => some ('\t', rest2)
  | 'r' :: rest2 => some ('\r', rest2)
  | 'b' :: rest2 => some (Char.ofNat 8, rest2)
  | 'f' :: rest2 => some (Char.ofNat 12, rest2)
  | 'u' :: rest2 => parseU rest2
  | _ => none

def parseStringLoop : Nat → List Char → Option (List Char × List Char)
  | 0, _ => none
  | fuel + 1, cs =>
    match cs with
    | [] => none
    | c :: rest =>
      if c = '\"' then some ([], rest)
      else if c = '\\' then
        match parseEscape rest with
        | some (ch, rest2) => consStr ch (parseStringLoop fuel rest2)
        | none => none
      else if c.toNat < 32 then none
      else consStr c (parseStringLoop fuel rest)

/-- Body of a JSON string (opening quote already consumed), up to and
including the closing quote. Each decoded character consumes at least one
input character, so `length + 1` fuel always suffices. -/
def parseStringBody (cs : List Char) : Option (List Char × List Char) :=
  parseStringLoop (cs.length + 1) cs

def digitsAcc : Nat → List Char → Nat × List Char
  | acc, [] => (acc, [])
  | acc, c :: rest =>
    if isDigitCh c then digitsAcc (acc * 10 + (c.toNat - 48)) rest else (acc, c :: rest)

def digitHead : List Char → Bool
  | [] => false
  | c :: _ => isDigitCh c

mutual

def parseValue : Nat → List Char → Option (Json × List Char)
  | 0, _ => none
  | fuel + 1, cs =>
    match skipWs cs with
    | [] => none
    | c :: rest =>
      if c = '\"' then
        match parseStringBody rest with
        | some (s, r) => some (.str (String.mk s), r)
        | none => none
      else if c = 't' then
        match rest with
        | 'r' :: 'u' :: 'e' :: r => some (.bool true, r)
        | _ => none
      else if c = 'f' then
        match rest with
        | 'a' :: 'l' :: 's' :: 'e' :: r => some (.bool false, r)
        | _ => none
      else if c = 'n' then
        match rest with
        | 'u' :: 'l' :: 'l' :: r => some (.null, r)
        | _ => none
      else if c = '[' then
        match skipWs rest with
        | [] => none
        | c2 :: r2 =>
          if c2 = ']' then some (.arr .nil, r2)
          else
            match parseValue fuel (c2 :: r2) with
            | some (hd, r3) =>
              match parseListTail fuel r3 with
              | some (tl, r4) => some (.arr (.cons hd tl), r4)
              | none => none
            | none => none
      else if c = '\x7b' then
        match skipWs rest with
        | [] => none
        | c2 :: r2 =>
          if c2 = '\x7d' then some (.obj .nil, r2)
          else if c2 = '\"' then
            match parseStringBody r2 with
            | some (k, r3) =>
              match skipWs r3 with
              | ':' :: r4 =>
                match parseValue fuel r4 with
                | some (v, r5) =>
                  match parseMemTail fuel r5 with
                  | some (tl, r6) => some (.obj (.cons (String.mk k) v tl), r6)
                  | none => none
                | none => none
              | _ => none
            | none => none
          else none
      else if c = '-' then
        match rest with
        | d :: _ =>
          if isDigitCh d then
            match digitsAcc 0 rest with
            | (n, r) => some (.num (-(n : Int)), r)
          else none
        | [] => none
      else if isDigitCh c then
        match digitsAcc 0 (c :: rest) with
        | (n, r) => some (.num ((n : Int)), r)
      else none

def parseListTail : Nat → List Char → Option (JsonList × List Char)
  | 0, _ => none
  | fuel + 1, cs =>
    match skipWs cs with
    | ']' :: r => some (.nil, r)
    | ',' :: r =>
      match parseValue fuel r with
      | some (v, r2) =>
        match parseListTail fuel r2 with
        | some (tl, r3) => some (.cons v tl, r3)
        | none => none
      | none => none
    | _ => none

def parseMemTail : Nat → List Char → Option (JsonMembers × List Char)
  | 0, _ => none
  | fuel + 1, cs =>
    match skipWs cs with
    | '\x7d' :: r => some (.nil, r)
    | ',' :: r =>
      match skipWs r with
      | '\"' :: r2 =>
        match parseStringBody r2 with
        | some (k, r3) =>
          match skipWs r3 with
          | ':' :: r4 =>
            match parseValue fuel r4 with
            | some (v, r5) =>
              match parseMemTail fuel r5 with
              | some (tl, r6) => some (.cons (String.mk k) v tl, r6)
              | none => none
            | none => none
          | _ => none
        | none => none
      | _ => none
    | _ => none

end

/-- Model of `json.loads`: parse one value, then require only trailing
whitespace (Python raises `JSONDecodeError` on extra data). -/
def json_loads (s : String) : Option Json :=
  match parseValue (s.data.length + 1) s.data with
  | some (v, rest) => if skipWs rest = [] then some v else none
  | none => none

/-! ## Round-trip: `json_loads (json_dumps v) = some v`

Python guarantees this for the fallback payloads the program serialises
with `json.dumps` and re-parses with `json.loads`; the agents rely on it. -/

theorem skipWs_not_ws {c : Char} (h : isWsCh c = false) (l : List Char) :
    skipWs (c :: l) = c :: l := by
  simp [skipWs, h]

theorem skipWs_ws {c : Char} (h : isWsCh c = true) (l : List Char) :
    skipWs (c :: l) = skipWs l := by
  simp [skipWs, h]

theorem hexDigitVal_hexDigitChar {k : Nat} (h : k < 16) :
    hexDigitVal (hexDigitChar k) = some k := by
  interval_cases k <;> decide

theorem decodeHex4_hex4 {n : Nat} (h : n < 65536) :
    decodeHex4 (hexDigitChar (n / 4096 % 16)) (hexDigitChar (n / 256 % 16))
      (hexDigitChar (n / 16 % 16)) (hexDigitChar (n % 16)) = some n := by
  rw [decodeHex4, hexDigitVal_hexDigitChar (Nat.mod_lt _ (by omega)),
      hexDigitVal_hexDigitChar (Nat.mod_lt _ (by omega)),
      hexDigitVal_hexDigitChar (Nat.mod_lt _ (by omega)),
      hexDigitVal_hexDigitChar (Nat.mod_lt _ (by omega))]
  show some _ = some n
  congr 1
  omega

theorem char_valid_range (c : Char) :
    c.toNat < 55296 ∨ (57344 ≤ c.toNat ∧ c.toNat < 1114112) := by
  have h := c.valid
  simpa [UInt32.isValidChar, Nat.isValidChar, Char.toNat] using h

theorem parseStringLoop_quote (fuel : Nat) (rest : List Char) :
    parseStringLoop (fuel + 1) ('\"' :: rest) = some ([], rest) := by
  simp only [parseStringLoop]
  rfl

theorem parseStringLoop_backslash (fuel : Nat) {rest : List Char} {ch : Char}
    {rest2 : List Char} (h : parseEscape rest = some (ch, rest2)) :
    parseStringLoop (fuel + 1) ('\\' :: rest) = consStr ch (parseStringLoop fuel rest2) := by
  simp only [parseStringLoop, h]
  rfl

theorem parseStringLoop_plain (fuel : Nat) {c : Char} (rest : List Char)
    (h1 : c ≠ '\"') (h2 : c ≠ '\\') (h3 : ¬c.toNat < 32) :
    parseStringLoop (fuel + 1) (c :: rest) = consStr c (parseStringLoop fuel rest) := by
  simp only [parseStringLoop]
  rw [if_neg h1, if_neg h2, if_neg h3]

theorem parseEscape_u (x : List Char) : parseEscape ('u' :: x) = parseU x := rfl

theorem parseU_hex (n : Nat) (l : List Char) (h : n < 65536)
    (hn1 : ¬(55296 ≤ n ∧ n < 56320)) (hn2 : ¬(56320 ≤ n ∧ n < 57344)) :
    parseU (hex4Chars n ++ l) = some (Char.ofNat n, l) := by
  simp only [hex4Chars, List.cons_append, List.nil_append, parseU, decodeHex4_hex4 h,
    if_neg hn1, if_neg hn2]

theorem parseU_sur (hi : Nat) (x : List Char) (hhi : 55296 ≤ hi ∧ hi < 56320)
    (hlt : hi < 65536) :
    parseU (hex4Chars hi ++ x) = parseLowSur hi x := by
  simp only [hex4Chars, List.cons_append, List.nil_append, parseU, decodeHex4_hex4 hlt,
    if_pos hhi]

theorem parseLowSur_hex (hi m : Nat) (l : List Char) (hm : m < 65536)
    (h56 : 56320 ≤ m ∧ m < 57344) :
    parseLowSur hi ('\\' :: 'u' :: (hex4Chars m ++ l)) =
      some (Char.ofNat (65536 + (hi - 55296) * 1024 + (m - 56320)), l) := by
  simp only [hex4Chars, List.cons_append, List.nil_append, parseLowSur, decodeHex4_hex4 hm,
    if_pos h56, and_self, if_true]

theorem parseStringLoop_escapeChar (fuel : Nat) (c : Char) (l : List Char) :
    parseStringLoop (fuel + 1) (escapeChar c ++ l) = consStr c (parseStringLoop fuel l) := by
  by_cases h1 : c = '\"'
  · subst h1; rfl
  by_cases h2 : c = '\\'
  · subst h2; rfl
  by_cases h3 : c = '\n'
  · subst h3; rfl
  by_cases h4 : c = '\t'
  · subst h4; rfl
  by_cases h5 : c = '\r'
  · subst h5; rfl
  by_cases h6 : c = Char.ofNat 8
  · subst h6; rfl
  by_cases h7 : c = Char.ofNat 12
  · subst h7; rfl
  rw [escapeChar, if_neg h1, if_neg h2, if_neg h3, if_neg h4, if_neg h5, if_neg h6, if_neg h7]
  by_cases h8 : c.toNat < 32
  · rw [if_pos h8]
    have hpe : parseEscape ('u' :: (hex4Chars c.toNat ++ l)) = some (c, l) := by
      rw [parseEscape_u, parseU_hex c.toNat l (by omega) (by omega) (by omega),
        Char.ofNat_toNat]
    simp only [List.cons_append]
    exact parseStringLoop_backslash fuel hpe
  rw [if_neg h8]
  by_cases h9 : c.toNat < 127
  · rw [if_pos h9]
    simp only [List.cons_append, List.nil_append]
    exact parseStringLoop_plain fuel l h1 h2 h8
  rw [if_neg h9]
  rcases char_valid_range c with hv | hv
  · -- in the BMP and (being a Lean scalar value) not a surrogate
    rw [if_pos (by omega)]
    have hpe : parseEscape ('u' :: (hex4Chars c.toNat ++ l)) = some (c, l) := by
      rw [parseEscape_u, parseU_hex c.toNat l (by omega) (by omega) (by omega),
        Char.ofNat_toNat]
    simp only [List.cons_append]
    exact parseStringLoop_backslash fuel hpe
  by_cases h10 : c.toNat < 65536
  · rw [if_pos h10]
    have hpe : parseEscape ('u' :: (hex4Chars c.toNat ++ l)) = some (c, l) := by
      rw [parseEscape_u, parseU_hex c.toNat l (by omega) (by omega) (by omega),
        Char.ofNat_toNat]
    simp only [List.cons_append]
    exact parseStringLoop_backslash fuel hpe
  · rw [if_neg h10]
    have hpe : parseEscape ('u' :: (hex4Chars (55296 + (c.toNat - 65536) / 1024) ++
        ('\\' :: 'u' :: (hex4Chars (56320 + (c.toNat - 65536) % 1024) ++ l)))) = some (c, l) := by
      rw [parseEscape_u, parseU_sur _ _ ⟨by omega, by omega⟩ (by omega),
        parseLowSur_hex _ _ l (by omega) ⟨by omega, by omega⟩,
        show 65536 + (55296 + (c.toNat - 65536) / 1024 - 55296) * 1024 +
          (56320 + (c.toNat - 65536) % 1024 - 56320) = c.toNat by omega,
        Char.ofNat_toNat]
    simp only [List.cons_append, List.append_assoc, List.nil_append]
    exact parseStringLoop_backslash fuel hpe

theorem parseStringLoop_escape (cs : List Char) :
    ∀ (fuel : Nat) (rest : List Char), cs.length < fuel →
      parseStringLoop fuel (escapeChars cs ++ ('\"' :: rest)) = some (cs, rest) := by
  induction cs with
  | nil =>
      intro fuel rest h
      obtain ⟨f, rfl⟩ : ∃ f, fuel = f + 1 := ⟨fuel - 1, by omega⟩
      rfl
  | cons c cs ih =>
      intro fuel rest h
      obtain ⟨f, rfl⟩ : ∃ f, fuel = f + 1 := ⟨fuel - 1, by omega⟩
      rw [escapeChars, List.append_assoc, parseStringLoop_escapeChar,
        ih f rest (by simpa using h)]
      rfl

theorem escapeChar_length_pos (c : Char) : 1 ≤ (escapeChar c).length := by
  unfold escapeChar
  repeat' split
  all_goals simp [hex4Chars]

theorem escapeChars_length_ge (cs : List Char) : cs.length ≤ (escapeChars cs).length := by
  induction cs with
  | nil => simp [escapeChars]
  | cons c cs ih =>
      rw [escapeChars, List.length_append, List.length_cons]
      have := escapeChar_length_pos c
      omega

theorem parseStringBody_escape (cs : List Char) (rest : List Char) :
    parseStringBody (escapeChars cs ++ ('\"' :: rest)) = some (cs, rest) := by
  rw [parseStringBody]
  apply parseStringLoop_escape
  have := escapeChars_length_ge cs
  simp only [List.length_append, List.length_cons]
  omega

/-! ## Numeric literals round-trip -/

theorem digitChar_facts {d : Nat} (h : d < 10) :
    isDigitCh (digitChar d) = true ∧ (digitChar d).toNat = 48 + d ∧
    isWsCh (digitChar d) = false ∧ digitChar d ≠ '\"' ∧ digitChar d ≠ 't' ∧
    digitChar d ≠ 'f' ∧ digitChar d ≠ 'n' ∧ digitChar d ≠ '[' ∧ digitChar d ≠ '\x7b' ∧
    digitChar d ≠ '-' ∧ digitChar d ≠ ']' ∧ digitChar d ≠ '\x7d' ∧ digitChar d ≠ ',' ∧
    digitChar d ≠ ':' := by
  interval_cases d <;> decide

theorem natChars_head (n : Nat) : ∃ d t, d < 10 ∧ natChars n = digitChar d :: t := by
  induction n using Nat.strong_induction_on with
  | _ n ih =>
    by_cases h : n < 10
    · exact ⟨n, [], h, by rw [natChars, if_pos h]⟩
    · obtain ⟨d, t, hd, ht⟩ := ih (n / 10) (Nat.div_lt_self (by omega) (by omega))
      refine ⟨d, t ++ [digitChar (n % 10)], hd, ?_⟩
      rw [natChars, if_neg h, ht]
      rfl

theorem digitsAcc_natChars (n : Nat) : ∀ acc rest,
    digitsAcc acc (natChars n ++ rest) =
      digitsAcc (acc * 10 ^ (natChars n).length + n) rest := by
  induction n using Nat.strong_induction_on with
  | _ n ih =>
    intro acc rest
    by_cases h : n < 10
    · obtain ⟨f1, f2, -⟩ := digitChar_facts h
      rw [natChars, if_pos h]
      simp only [List.cons_append, List.nil_append, List.length_cons, List.length_nil,
        digitsAcc, f1, if_true, f2]
      congr 1
      simp [pow_succ]
    · have h10 : n % 10 < 10 := by omega
      obtain ⟨f1, f2, -⟩ := digitChar_facts h10
      rw [natChars, if_neg h, List.append_assoc, ih (n / 10) (Nat.div_lt_self (by omega) (by omega))]
      simp only [List.cons_append, List.nil_append, digitsAcc, f1, if_true, f2,
        List.length_append, List.length_cons, List.length_nil]
      congr 1
      have hx : 48 + n % 10 - 48 = n % 10 := by omega
      rw [hx, pow_succ]
      have hm : n / 10 * 10 + n % 10 = n := by omega
      calc (acc * 10 ^ (natChars (n / 10)).length + n / 10) * 10 + n % 10
          = acc * (10 ^ (natChars (n / 10)).length * 10) + (n / 10 * 10 + n % 10) := by ring
        _ = acc * (10 ^ (natChars (n / 10)).length * 10) + n := by rw [hm]

theorem digitsAcc_stop {rest : List Char} (h : digitHead rest = false) (acc : Nat) :
    digitsAcc acc rest = (acc, rest) := by
  cases rest with
  | nil => rfl
  | cons c l =>
      have : isDigitCh c = false := h
      simp [digitsAcc, this]

theorem digitsAcc_run (n : Nat) {rest : List Char} (h : digitHead rest = false) :
    digitsAcc 0 (natChars n ++ rest) = (n, rest) := by
  rw [digitsAcc_natChars]
  simp only [Nat.zero_mul, Nat.zero_add]
  exact digitsAcc_stop h n

/-! ## Value-level round-trip -/

theorem string_mk_data (s : String) : String.mk s.data = s := rfl

theorem parseValue_ws (fuel : Nat) {c : Char} (hw : isWsCh c = true) (l : List Char) :
    parseValue fuel (c :: l) = parseValue fuel l := by
  cases fuel with
  | zero => rfl
  | succ f => simp only [parseValue, skipWs_ws hw]

theorem parseValue_step_str (fuel : Nat) {rest s r : List Char}
    (h : parseStringBody rest = some (s, r)) :
    parseValue (fuel + 1) ('\"' :: rest) = some (.str (String.mk s), r) := by
  simp only [parseValue, skipWs_not_ws (show isWsCh '\"' = false by decide), h]
  rfl

theorem parseValue_step_true (fuel : Nat) (r : List Char) :
    parseValue (fuel + 1) ('t' :: 'r' :: 'u' :: 'e' :: r) = some (.bool true, r) := by
  simp only [parseValue, skipWs_not_ws (show isWsCh 't' = false by decide)]
  rfl

theorem parseValue_step_false (fuel : Nat) (r : List Char) :
    parseValue (fuel + 1) ('f' :: 'a' :: 'l' :: 's' :: 'e' :: r) = some (.bool false, r) := by
  simp only [parseValue, skipWs_not_ws (show isWsCh 'f' = false by decide)]
  rfl

theorem parseValue_step_null (fuel : Nat) (r : List Char) :
    parseValue (fuel + 1) ('n' :: 'u' :: 'l' :: 'l' :: r) = some (.null, r) := by
  simp only [parseValue, skipWs_not_ws (show isWsCh 'n' = false by decide)]
  rfl

theorem parseValue_step_arr_nil (fuel : Nat) (r : List Char) :
    parseValue (fuel + 1) ('[' :: (']' :: r)) = some (.arr .nil, r) := by
  simp only [parseValue, skipWs_not_ws (show isWsCh '[' = false by decide),
    skipWs_not_ws (show isWsCh ']' = false by decide)]
  rfl

theorem parseValue_step_arr_cons (fuel : Nat) {c : Char} {t : List Char} {hd : Json}
    {r3 : List Char} {tl : JsonList} {r4 : List Char} (hw : isWsCh c = false) (hne : c ≠ ']')
    (h1 : parseValue fuel (c :: t) = some (hd, r3))
    (h2 : parseListTail fuel r3 = some (tl, r4)) :
    parseValue (fuel + 1) ('[' :: (c :: t)) = some (.arr (.cons hd tl), r4) := by
  simp only [parseValue, skipWs_not_ws (show isWsCh '[' = false by decide),
    skipWs_not_ws hw, h1, h2, if_neg hne]
  rfl

theorem parseValue_step_obj_nil (fuel : Nat) (r : List Char) :
    parseValue (fuel + 1) ('\x7b' :: ('\x7d' :: r)) = some (.obj .nil, r) := by
  simp only [parseValue, skipWs_not_ws (show isWsCh '\x7b' = false by decide),
    skipWs_not_ws (show isWsCh '\x7d' = false by decide)]
  rfl

theorem parseValue_step_obj_cons (fuel : Nat) {r2 : List Char} {k : List Char} {r3 : List Char}
    {r4 : List Char} {v : Json} {r5 : List Char} {tl : JsonMembers} {r6 : List Char}
    (hk : parseStringBody r2 = some (k, r3)) (hcol : skipWs r3 = ':' :: r4)
    (hv : parseValue fuel r4 = some (v, r5)) (hmt : parseMemTail fuel r5 = some (tl, r6)) :
    parseValue (fuel + 1) ('\x7b' :: ('\"' :: r2)) = some (.obj (.cons (String.mk k) v tl), r6) := by
  simp only [parseValue, skipWs_not_ws (show isWsCh '\x7b' = false by decide),
    skipWs_not_ws (show isWsCh '\"' = false by decide), hk, hcol, hv, hmt]
  rfl

theorem parseValue_step_minus (fuel : Nat) {d : Char} {t : List Char} {n : Nat} {r : List Char}
    (hd : isDigitCh d = true) (hrun : digitsAcc 0 (d :: t) = (n, r)) :
    parseValue (fuel + 1) ('-' :: (d :: t)) = some (.num (-(n : Int)), r) := by
  simp only [parseValue, skipWs_not_ws (show isWsCh '-' = false by decide), hd, if_true, hrun]
  rfl

theorem parseValue_step_digit (fuel : Nat) {c : Char} {rest : List Char} {n : Nat} {r : List Char}
    (hd : isDigitCh c = true) (hq : c ≠ '\"') (ht : c ≠ 't') (hf : c ≠ 'f') (hn : c ≠ 'n')
    (hb : c ≠ '[') (ho : c ≠ '\x7b') (hm : c ≠ '-') (hw : isWsCh c = false)
    (hrun : digitsAcc 0 (c :: rest) = (n, r)) :
    parseValue (fuel + 1) (c :: rest) = some (.num ((n : Int)), r) := by
  simp only [parseValue, skipWs_not_ws hw, hd, if_true, hrun, if_neg hq, if_neg ht, if_neg hf,
    if_neg hn, if_neg hb, if_neg ho, if_neg hm]

theorem parseListTail_step_close (fuel : Nat) (r : List Char) :
    parseListTail (fuel + 1) (']' :: r) = some (.nil, r) := by
  simp only [parseListTail, skipWs_not_ws (show isWsCh ']' = false by decide)]

theorem parseListTail_step_comma (fuel : Nat) {r : List Char} {v : Json} {r2 : List Char}
    {tl : JsonList} {r3 : List Char} (h1 : parseValue fuel r = some (v, r2))
    (h2 : parseListTail fuel r2 = some (tl, r3)) :
    parseListTail (fuel + 1) (',' :: r) = some (.cons v tl, r3) := by
  simp only [parseListTail, skipWs_not_ws (show isWsCh ',' = false by decide), h1, h2]

theorem parseMemTail_step_close (fuel : Nat) (r : List Char) :
    parseMemTail (fuel + 1) ('\x7d' :: r) = some (.nil, r) := by
  simp only [parseMemTail, skipWs_not_ws (show isWsCh '\x7d' = false by decide)]

theorem parseMemTail_step_comma (fuel : Nat) {r r2 : List Char} {k : List Char} {r3 r4 : List Char}
    {v : Json} {r5 : List Char} {tl : JsonMembers} {r6 : List Char}
    (hr : skipWs r = '\"' :: r2) (hk : parseStringBody r2 = some (k, r3))
    (hcol : skipWs r3 = ':' :: r4) (hv : parseValue fuel r4 = some (v, r5))
    (hmt : parseMemTail fuel r5 = some (tl, r6)) :
    parseMemTail (fuel + 1) (',' :: r) = some (.cons (String.mk k) v tl, r6) := by
  simp only [parseMemTail, skipWs_not_ws (show isWsCh ',' = false by decide), hr, hk, hcol,
    hv, hmt]

theorem dumpsV_shape (v : Json) : ∃ c t, dumpsV v = c :: t ∧ isWsCh c = false ∧ c ≠ ']' := by
  cases v with
  | str s => exact ⟨'\"', _, rfl, by decide, by decide⟩
  | num i =>
    show ∃ c t, intChars i = c :: t ∧ _
    rw [intChars]
    by_cases h : i < 0
    · rw [if_pos h]
      exact ⟨'-', _, rfl, by decide, by decide⟩
    · rw [if_neg h]
      obtain ⟨d, t, hd, ht⟩ := natChars_head i.toNat
      obtain ⟨-, -, f3, -, -, -, -, -, -, -, f11, -⟩ := digitChar_facts hd
      exact ⟨digitChar d, t, ht, f3, f11⟩
  | bool b => cases b with
    | true => exact ⟨'t', _, rfl, by decide, by decide⟩
    | false => exact ⟨'f', _, rfl, by decide, by decide⟩
  | null => exact ⟨'n', _, rfl, by decide, by decide⟩
  | arr xs => exact ⟨'[', _, rfl, by decide, by decide⟩
  | obj ms => exact ⟨'\x7b', _, rfl, by decide, by decide⟩

theorem dumpsV_length_pos (v : Json) : 1 ≤ (dumpsV v).length := by
  obtain ⟨c, t, h, -, -⟩ := dumpsV_shape v
  rw [h]
  simp

theorem dumpsLTail_length_pos (xs : JsonList) : 1 ≤ (dumpsLTail xs).length := by
  cases xs <;> simp [dumpsLTail]

theorem dumpsMTail_length_pos (ms : JsonMembers) : 1 ≤ (dumpsMTail ms).length := by
  cases ms <;> simp [dumpsMTail]

theorem digitHead_dumpsLTail (xs : JsonList) (r : List Char) :
    digitHead (dumpsLTail xs ++ r) = false := by
  cases xs <;> rfl

theorem digitHead_dumpsMTail (ms : JsonMembers) (r : List Char) :
    digitHead (dumpsMTail ms ++ r) = false := by
  cases ms <;> rfl

/-- Round-trip: the parser recovers exactly the value the serializer wrote,
leaving `rest` untouched (`rest` must not start with a digit, as a digit
would extend a serialized numeral; every JSON context satisfies this). -/
theorem parse_dumps (fuel : Nat) :
    (∀ (v : Json) (rest : List Char), (dumpsV v).length < fuel → digitHead rest = false →
      parseValue fuel (dumpsV v ++ rest) = some (v, rest)) ∧
    (∀ (xs : JsonList) (rest : List Char), (dumpsLTail xs).length < fuel →
      digitHead rest = false →
      parseListTail fuel (dumpsLTail xs ++ rest) = some (xs, rest)) ∧
    (∀ (ms : JsonMembers) (rest : List Char), (dumpsMTail ms).length < fuel →
      digitHead rest = false →
      parseMemTail fuel (dumpsMTail ms ++ rest) = some (ms, rest)) := by
  induction fuel with
  | zero =>
      refine ⟨?_, ?_, ?_⟩ <;> intro x rest h1 h2 <;> exact absurd h1 (Nat.not_lt_zero _)
  | succ f ih =>
    obtain ⟨ihV, ihL, ihM⟩ := ih
    refine ⟨?_, ?_, ?_⟩
    · intro v rest hlen hdig
      cases v with
      | str s =>
          simp only [dumpsV, List.cons_append, List.append_assoc, List.nil_append]
          rw [parseValue_step_str f (parseStringBody_escape s.data rest), string_mk_data]
      | num i =>
          simp only [dumpsV, intChars] at hlen ⊢
          by_cases hneg : i < 0
          · rw [if_pos hneg] at hlen ⊢
            obtain ⟨d, t, hd10, ht⟩ := natChars_head (-i).toNat
            have hrun := digitsAcc_run (-i).toNat hdig
            rw [ht, List.cons_append] at hrun
            have hdd := (digitChar_facts hd10).1
            rw [List.cons_append, ht, List.cons_append, parseValue_step_minus f hdd hrun]
            have hcast : (((-i).toNat : Int)) = -i := Int.toNat_of_nonneg (by omega)
            rw [hcast, neg_neg]
          · rw [if_neg hneg] at hlen ⊢
            obtain ⟨d, t, hd10, ht⟩ := natChars_head i.toNat
            have hrun := digitsAcc_run i.toNat hdig
            rw [ht, List.cons_append] at hrun
            obtain ⟨f1, -, f3, f4, f5, f6, f7, f8, f9, f10, -⟩ := digitChar_facts hd10
            rw [ht, List.cons_append, parseValue_step_digit f f1 f4 f5 f6 f7 f8 f9 f10 f3 hrun]
            have hcast : ((i.toNat : Int)) = i := Int.toNat_of_nonneg (by omega)
            rw [hcast]
      | bool b =>
          cases b with
          | true => exact parseValue_step_true f rest
          | false => exact parseValue_step_false f rest
      | null => exact parseValue_step_null f rest
      | arr xs =>
          cases xs with
          | nil => exact parseValue_step_arr_nil f rest
          | cons hd tl =>
              simp only [dumpsV, dumpsL, List.cons_append, List.append_assoc] at hlen ⊢
              simp only [List.length_cons, List.length_append] at hlen
              have hp1 := dumpsV_length_pos hd
              have hp2 := dumpsLTail_length_pos tl
              have h1 : parseValue f (dumpsV hd ++ (dumpsLTail tl ++ rest)) =
                  some (hd, dumpsLTail tl ++ rest) :=
                ihV hd _ (by omega) (digitHead_dumpsLTail tl rest)
              have h2 : parseListTail f (dumpsLTail tl ++ rest) = some (tl, rest) :=
                ihL tl rest (by omega) hdig
              obtain ⟨c, t, hshape, hw, hne⟩ := dumpsV_shape hd
              rw [hshape, List.cons_append] at h1 ⊢
              exact parseValue_step_arr_cons f hw hne h1 h2
      | obj ms =>
          cases ms with
          | nil => exact parseValue_step_obj_nil f rest
          | cons k v tl =>
              simp only [dumpsV, dumpsM, List.cons_append, List.append_assoc] at hlen ⊢
              simp only [List.length_append, List.length_cons] at hlen
              have hp1 := dumpsV_length_pos v
              have hp2 := dumpsMTail_length_pos tl
              have hk := parseStringBody_escape k.data
                (':' :: ' ' :: (dumpsV v ++ (dumpsMTail tl ++ rest)))
              have hcol : skipWs (':' :: ' ' :: (dumpsV v ++ (dumpsMTail tl ++ rest))) =
                  ':' :: (' ' :: (dumpsV v ++ (dumpsMTail tl ++ rest))) :=
                skipWs_not_ws (by decide) _
              have hv : parseValue f (' ' :: (dumpsV v ++ (dumpsMTail tl ++ rest))) =
                  some (v, dumpsMTail tl ++ rest) := by
                rw [parseValue_ws f (by decide)]
                exact ihV v _ (by omega) (digitHead_dumpsMTail tl rest)
              have hmt : parseMemTail f (dumpsMTail tl ++ rest) = some (tl, rest) :=
                ihM tl rest (by omega) hdig
              rw [parseValue_step_obj_cons f hk hcol hv hmt, string_mk_data]
    · intro xs rest hlen hdig
      cases xs with
      | nil => exact parseListTail_step_close f rest
      | cons hd tl =>
          simp only [dumpsLTail, List.cons_append, List.append_assoc] at hlen ⊢
          simp only [List.length_cons, List.length_append] at hlen
          have hp1 := dumpsV_length_pos hd
          have hp2 := dumpsLTail_length_pos tl
          have h1 : parseValue f (' ' :: (dumpsV hd ++ (dumpsLTail tl ++ rest))) =
              some (hd, dumpsLTail tl ++ rest) := by
            rw [parseValue_ws f (by decide)]
            exact ihV hd _ (by omega) (digitHead_dumpsLTail tl rest)
          have h2 : parseListTail f (dumpsLTail tl ++ rest) = some (tl, rest) :=
            ihL tl rest (by omega) hdig
          exact parseListTail_step_comma f h1 h2
    · intro ms rest hlen hdig
      cases ms with
      | nil => exact parseMemTail_step_close f rest
      | cons k v tl =>
          simp only [dumpsMTail, List.cons_append, List.append_assoc] at hlen ⊢
          simp only [List.length_cons, List.length_append] at hlen
          have hp1 := dumpsV_length_pos v
          have hp2 := dumpsMTail_length_pos tl
          have hr : skipWs (' ' :: '\"' :: (escapeChars k.data ++
              ('\"' :: ':' :: ' ' :: (dumpsV v ++ (dumpsMTail tl ++ rest))))) =
              '\"' :: (escapeChars k.data ++
              ('\"' :: ':' :: ' ' :: (dumpsV v ++ (dumpsMTail tl ++ rest)))) := by
            rw [skipWs_ws (by decide), skipWs_not_ws (by decide)]
          have hk := parseStringBody_escape k.data
            (':' :: ' ' :: (dumpsV v ++ (dumpsMTail tl ++ rest)))
          have hcol : skipWs (':' :: ' ' :: (dumpsV v ++ (dumpsMTail tl ++ rest))) =
              ':' :: (' ' :: (dumpsV v ++ (dumpsMTail tl ++ rest))) :=
            skipWs_not_ws (by decide) _
          have hv : parseValue f (' ' :: (dumpsV v ++ (dumpsMTail tl ++ rest))) =
              some (v, dumpsMTail tl ++ rest) := by
            rw [parseValue_ws f (by decide)]
            exact ihV v _ (by omega) (digitHead_dumpsMTail tl rest)
          have hmt : parseMemTail f (dumpsMTail tl ++ rest) = some (tl, rest) :=
            ihM tl rest (by omega) hdig
          rw [parseMemTail_step_comma f hr hk hcol hv hmt, string_mk_data]

/-- Round trip `json.loads (json.dumps v) = v`: the guarantee Python's `json` module
provides for every payload this program serialises and re-parses. -/
theorem json_loads_dumps (v : Json) : json_loads (json_dumps v) = some v := by
  have h := (parse_dumps ((dumpsV v).length + 1)).1 v [] (by omega) rfl
  rw [List.append_nil] at h
  have hdata : (json_dumps v).data = dumpsV v := rfl
  simp only [json_loads, hdata, h]
  rfl

/-! ## Python dict / list / str helpers over decoded JSON values -/

/-- Model of `dict.get`: last occurrence wins, matching Python dict key semantics
(duplicate keys inside one decoded object cannot survive a real `dict`). -/
def membersGet : JsonMembers → String → Option Json
  | .nil, _ => none
  | .cons k v tl, key =>
    match membersGet tl key with
    | some r => some r
    | none => if k = key then some v else none

/-- Model of `candidate_info.get(key)` / `job.get(key)`: `none` both for a missing
key and for a non-dict receiver (Python would raise `AttributeError` on the
latter; no claim exercises it). -/
def jsonGet : Json → String → Option Json
  | .obj ms, key => membersGet ms key
  | _, _ => none

def membersHas : JsonMembers → String → Bool
  | .nil, _ => false
  | .cons k _ tl, key => k = key || membersHas tl key

def membersReplace : JsonMembers → String → Json → JsonMembers
  | .nil, _, _ => .nil
  | .cons k w tl, key, v =>
    if k = key then .cons k v (membersReplace tl key v) else .cons k w (membersReplace tl key v)

def membersAppend : JsonMembers → String → Json → JsonMembers
  | .nil, k, v => .cons k v .nil
  | .cons k0 v0 tl, k, v => .cons k0 v0 (membersAppend tl k v)

/-- Model of `d[key] = v` on a Python dict: replace in place when present, append
otherwise. -/
def membersSet (ms : JsonMembers) (k : String) (v : Json) : JsonMembers :=
  if membersHas ms k then membersReplace ms k v else membersAppend ms k v

/-- Model of `candidate_info["role"] = value` (app.py 158). On a non-dict the model
leaves the value unchanged; Python would raise `TypeError` and kill the run,
which no claim exercises. -/
def jsonSetKey : Json → String → Json → Json
  | .obj ms, k, v => .obj (membersSet ms k v)
  | j, _, _ => j

/-- Python `str()` as applied by f-string interpolation to decoded JSON
values. Strings interpolate verbatim; `None`/`True`/`False` render with
Python capitalization; integers as decimal. For container values the
Python `repr` spelling differs from JSON in quoting only, which no claim
inspects, so the JSON serialization stands in. -/
def pyStr : Json → String
  | .str s => s
  | .null => "None"
  | .bool true => "True"
  | .bool false => "False"
  | v => json_dumps v

/-- Model of `x.get(key, default)` rendered into an f-string. -/
def pyStrD : Option Json → String → String
  | some v, _ => pyStr v
  | none, d => d

/-- Python `str.startswith` on character lists. -/
def startsList : List Char → List Char → Bool
  | [], _ => true
  | _ :: _, [] => false
  | p :: ps, c :: cs => p = c && startsList ps cs

/-- Python substring test (the `in` operator on `str`). -/
def hasSub (pat : List Char) : List Char → Bool
  | [] => startsList pat []
  | c :: cs => startsList pat (c :: cs) || hasSub pat cs

def pyStartsWith (s pre : String) : Bool := startsList pre.data s.data

def pyContains (s sub : String) : Bool := hasSub sub.data s.data

def takeJson : Nat → JsonList → JsonList
  | 0, _ => .nil
  | _, .nil => .nil
  | n + 1, .cons hd tl => .cons hd (takeJson n tl)

/-- Model of `', '.join(...)` over decoded skill entries; entries are rendered with
`pyStr` (Python joins `str` items verbatim and raises on non-`str` items,
which no claim exercises). -/
def joinWithComma : JsonList → String
  | .nil => ""
  | .cons hd .nil => pyStr hd
  | .cons hd tl => pyStr hd ++ ", " ++ joinWithComma tl

/-- Model of the skill join `', '.join(candidate_info.get('skills', [])[:3])` (agents.py 97/105):
missing or non-list skills degrade to the empty sequence. -/
def skills3 (candidate_info : Json) : String :=
  joinWithComma (takeJson 3 (match jsonGet candidate_info "skills" with
    | some (.arr xs) => xs
    | _ => JsonList.nil))

/-! ## agents.py -/

/-- Outcome of one provider call (`model.generate_content`): a successful
response with text, a `ResourceExhausted` (quota / 429) exception, or any
other exception. -/
inductive ProviderResult where
  | success (text : String)
  | resourceExhausted
  | otherError (msg : String)
  deriving DecidableEq, Repr

/-- Credential configuration (`st.secrets` / session state collapsed to one
flag) plus provider behaviour for one gateway call. -/
structure GenAIEnv where
  apiKeyConfigured : Bool
  provider : ProviderResult
  deriving DecidableEq, Repr

/-- agents.py `configure_genai`: true iff a Gemini key is available from
secrets or the sidebar input. -/
def configure_genai (env : GenAIEnv) : Bool := env.apiKeyConfigured

/-- Return value plus the UI side effects (`st.warning` / `st.error`) and
whether the provider was contacted at all. -/
structure GatewayResult where
  text : String
  warnings : List String
  errors : List String
  providerCalled : Bool
  deriving DecidableEq, Repr

/-- agents.py `call_gemini_with_fallback` (lines 22-40): no credential →
immediate fallback without a provider call; `ResourceExhausted` →
`st.warning` + fallback; any other exception → `st.error` + fallback.
`json_format` only selects the model / response MIME type of the provider
call and does not affect the control flow. -/
def call_gemini_with_fallback (env : GenAIEnv) (prompt : String)
    (fallback_response : String) (json_format : Bool) : GatewayResult :=
  if ¬configure_genai env then
    ⟨fallback_response, [], [], false⟩
  else
    match env.provider with
    | .success t => ⟨t, [], [], true⟩
    | .resourceExhausted =>
        ⟨fallback_response,
          ["Gemini API Quota Exceeded (429). Using Fallback Template Engine."], [], true⟩
    | .otherError e => ⟨fallback_response, [], ["Gemini API Error: " ++ e], true⟩

/-- Prompt of `parse_resume_agent`; inert for the oracle, kept for shape. -/
def resume_prompt (resume_text : String) : String :=
  "Analyze the following resume and extract the key information into a JSON format.\n" ++
  "The output must strictly be a JSON object with the keys role, skills, experience_level.\n" ++
  "Resume Text:\n" ++ resume_text

/-- The fallback dict literal of agents.py lines 55-59. -/
def parse_resume_fallback : Json :=
  .obj (.cons "role" (.str "Software Engineer")
    (.cons "skills" (.arr (.cons (.str "Python") (.cons (.str "Problem Solving")
      (.cons (.str "Communication") .nil))))
    (.cons "experience_level" (.str "Mid") .nil)))

/-- agents.py `parse_resume_agent` (lines 42-66): call the gateway with the
serialized fallback as `fallback_response`, then `json.loads` the reply;
on `JSONDecodeError` re-parse the fallback string. That re-parse cannot
fail (`json_loads_dumps`); the `.getD .null` default only totalizes the
model. -/
def parse_resume_agent (env : GenAIEnv) (resume_text : String) : Json :=
  let fallback_json := json_dumps parse_resume_fallback
  let response := (call_gemini_with_fallback env (resume_prompt resume_text)
    fallback_json true).text
  match json_loads response with
  | some v => v
  | none => (json_loads fallback_json).getD .null

/-- Prompt of `job_discovery_agent`; inert for the oracle. -/
def discovery_prompt (role location : String) : String :=
  "Generate exactly 3 mock job opportunities for a " ++ role ++ " in " ++ location ++ ".\n" ++
  "Return output as a JSON array of objects with company_name, job_title, contact_email."

/-- The fallback list literal of agents.py lines 78-82, with the f-string
role interpolations. -/
def job_discovery_fallback (role : String) : Json :=
  .arr (.cons (.obj (.cons "company_name" (.str "TechNova Solutions")
      (.cons "job_title" (.str ("Senior " ++ role))
      (.cons "contact_email" (.str "careers@technova.example.com") .nil))))
    (.cons (.obj (.cons "company_name" (.str "Quantum Innovations")
      (.cons "job_title" (.str ("Lead " ++ role))
      (.cons "contact_email" (.str "hr@quantuminnovations.example.com") .nil))))
    (.cons (.obj (.cons "company_name" (.str "CloudNine Systems")
      (.cons "job_title" (.str role)
      (.cons "contact_email" (.str "jobs@cloudninesystems.example.com") .nil))))
    .nil)))

/-- agents.py `job_discovery_agent` (lines 68-89); same decode policy as
`parse_resume_agent`. `role` is the f-string rendering of the value the
caller passes (the caller interpolates it into the prompt and fallback). -/
def job_discovery_agent (env : GenAIEnv) (role location : String) : Json :=
  let fallback_json := json_dumps (job_discovery_fallback role)
  let response := (call_gemini_with_fallback env (discovery_prompt role location)
    fallback_json true).text
  match json_loads response with
  | some v => v
  | none => (json_loads fallback_json).getD .null

/-- Prompt of `cover_letter_agent`; inert for the oracle. -/
def cover_prompt (candidate_info : Json) (company_name job_title : String) : String :=
  "Write a professional and hyper-personalized cover letter.\nCandidate Role: " ++
  pyStrD (jsonGet candidate_info "role") "None" ++ "\nTarget Company: " ++ company_name ++
  "\nTarget Job Title: " ++ job_title

/-- The fallback f-string of agents.py line 105. -/
def cover_letter_fallback (candidate_info : Json) (company_name job_title : String) : String :=
  "Dear Hiring Manager at " ++ company_name ++
  ",\n\nI am writing to express my strong interest in the " ++ job_title ++
  " role. With my background in " ++ pyStrD (jsonGet candidate_info "role") "None" ++
  " and experience in " ++ skills3 candidate_info ++
  ", I am confident I would be a valuable addition to your team.\n\n" ++
  "Please find my resume attached.\n\nBest regards,\nA Dedicated Professional"

/-- agents.py `cover_letter_agent` (lines 91-107): free-text mode, no
decode step. -/
def cover_letter_agent (env : GenAIEnv) (candidate_info : Json)
    (company_name job_title : String) : String :=
  (call_gemini_with_fallback env (cover_prompt candidate_info company_name job_title)
    (cover_letter_fallback candidate_info company_name job_title) false).text

/-- The fixed 10-question fallback of agents.py line 117 (independent of
the role). -/
def interview_prep_fallback : String :=
  "1. Tell me about yourself.\n2. What are your greatest strengths?\n" ++
  "3. Describe a challenging project you worked on.\n4. How do you handle tight deadlines?\n" ++
  "5. Where do you see yourself in 5 years?\n6. Why do you want to work here?\n" ++
  "7. Describe a time you disagreed with a coworker.\n" ++
  "8. How do you stay updated with industry trends?\n" ++
  "9. What is your preferred work environment?\n10. Do you have any questions for us?"

/-- Prompt of `interview_prep_agent`; inert for the oracle. -/
def prep_prompt (role : String) : String :=
  "Generate exactly 10 tailored interview preparation questions for a " ++ role ++ " position."

/-- agents.py `interview_prep_agent` (lines 109-119): free-text mode, no
decode step. -/
def interview_prep_agent (env : GenAIEnv) (role : String) : String :=
  (call_gemini_with_fallback env (prep_prompt role) interview_prep_fallback false).text

/-! ## utils.py -/

/-- Outcome of the external `pypdf.PdfReader` read: per-page extracted text
(possibly empty per page), or an exception raised anywhere in the read. -/
inductive PdfResult where
  | pages (texts : List String)
  | exn (msg : String)
  deriving DecidableEq, Repr

/-- utils.py `extract_text_from_pdf` (lines 9-21): concatenate each
non-empty page text followed by a newline (`if extract:` skips falsy
results); on any exception, report `st.error` and return `""`. -/
def extract_text_from_pdf : PdfResult → String
  | .pages texts =>
      texts.foldl (fun acc t => if t ≠ "" then acc ++ t ++ "\n" else acc) ""
  | .exn _ => ""

/-- Outcome of the SMTP session in `send_email_with_attachment`. -/
inductive TransportOutcome where
  | delivered
  | authError
  | otherException (msg : String)
  deriving DecidableEq, Repr

/-- The rate-limit wait `send_email_with_attachment` performs before every
real dispatch: `time.sleep(20)` (utils.py line 44). -/
def smtp_rate_limit_delay : Nat := 20

/-- The simulated wait of the sandbox branch: `time.sleep(3)` (app.py 207). -/
def mock_send_delay : Nat := 3

/-- utils.py `send_email_with_attachment` (lines 23-57): sleeps
`smtp_rate_limit_delay` and then runs the SMTP session; returns `True` on
delivery, `False` when `SMTPAuthenticationError` or any other exception is
caught (both report `st.error`). It never raises. -/
def send_email_with_attachment : TransportOutcome → Bool
  | .delivered => true
  | .authError => false
  | .otherException _ => false

/-! ## app.py: session state, metrics sink, log window -/

structure SessionState where
  logs : List String
  jobs_identified : Nat
  successful_dispatches : Nat
  api_fallbacks : Nat
  parsed_resume : Option Json
  mock_jobs : Option Json
  interview_questions : Option String
  workflow_started : Bool
  workflow_completed : Bool
  deriving DecidableEq, Repr

/-- app.py `init_session_state` defaults (lines 23-40). -/
def init_session_state : SessionState :=
  ⟨[], 0, 0, 0, none, none, none, false, false⟩

/-- app.py `append_log` (lines 42-51): increments `api_fallbacks` iff the
`fallback` flag is set, then appends the entry. The timestamp and the HTML
colour markup (driven by `error`/`fallback`) are presentation only and are
dropped from the model; `error` never touches any counter. -/
def append_log (st : SessionState) (message : String) (error fallback : Bool) : SessionState :=
  let st := if fallback then { st with api_fallbacks := st.api_fallbacks + 1 } else st
  { st with logs := st.logs ++ [message] }

/-- app.py `render_logs` (lines 53-58): the widget shows
`st.session_state.logs[-50:]`, i.e. the most recent 50 entries in order;
the underlying list itself is not truncated. -/
def render_logs_view (st : SessionState) : List String :=
  st.logs.drop (st.logs.length - 50)

/-! ## app.py: the workflow -/

/-- Everything the workflow run reads from the outside world: operator
configuration, the uploaded PDF, provider behaviour per gateway call site
(the cover-letter site is indexed by opportunity position), and transport
behaviour per opportunity position. -/
structure RunEnv where
  smtpConfigured : Bool
  pdf : PdfResult
  parseEnv : GenAIEnv
  discoveryEnv : GenAIEnv
  coverEnv : Nat → GenAIEnv
  interviewEnv : GenAIEnv
  transport : Nat → TransportOutcome
  manualRole : String
  location : String

/-- Per-opportunity outcome of the dispatch loop (the spec's implicit
DispatchRecord): what was targeted, the generated letter, whether the
fallback-template sniff fired, which delay was slept, whether the real
transport was invoked, and whether the outcome counts as sent. -/
structure DispatchRecord where
  company : String
  job_title : String
  recipient : String
  cover_letter : String
  used_fallback_sniffed : Bool
  delayUsed : Nat
  usedRealTransport : Bool
  sent : Bool
  deriving DecidableEq, Repr

/-- One iteration of the dispatch loop (app.py lines 181-224) for `job` at
position `index` out of `total`. `time.sleep` is modelled by recording the
slept delay in the record. -/
def dispatch_step (env : RunEnv) (candidate_info : Json) (total index : Nat) (job : Json)
    (st : SessionState) : SessionState × DispatchRecord :=
  let company := pyStrD (jsonGet job "company_name") ("Company " ++ toString (index + 1))
  let title := pyStrD (jsonGet job "job_title") "Software Engineer"
  let recipient := pyStrD (jsonGet job "contact_email") "hr@example.com"
  let st := append_log st ("--- Processing " ++ toString (index + 1) ++ "/" ++ toString total ++
    ": " ++ company ++ " ---") false false
  let st := append_log st ("Generating hyper-personalized cover letter targeting " ++ title ++
    " at " ++ company ++ "...") false false
  let cover_letter := cover_letter_agent (env.coverEnv index) candidate_info company title
  let sniffed := pyStartsWith cover_letter "Dear" &&
    pyContains cover_letter "A Dedicated Professional"
  let st := if sniffed then
      append_log st "Notice: Used fallback template for cover letter." false true
    else st
  let st := append_log st ("Preparing dispatch to " ++ recipient ++
    " (Includes 20s rate limit buffer)...") false false
  let step :=
    if pyContains recipient "example" then
      (append_log st ("Mocking sent email to " ++ recipient ++ " (Simulated 3s delay)...")
         false false,
       true, mock_send_delay, false)
    else
      (st, send_email_with_attachment (env.transport index), smtp_rate_limit_delay, true)
  let st := step.1
  let success := step.2.1
  let delay := step.2.2.1
  let real := step.2.2.2
  if success then
    let st := { st with successful_dispatches := st.successful_dispatches + 1 }
    let st := append_log st ("Successfully dispatched application to " ++ company ++ " ✅")
      false false
    (st, ⟨company, title, recipient, cover_letter, sniffed, delay, real, true⟩)
  else
    let st := append_log st ("Failed to dispatch to " ++ company ++ " ❌") true false
    (st, ⟨company, title, recipient, cover_letter, sniffed, delay, real, false⟩)

/-- The `for index, job in enumerate(mock_jobs)` loop (app.py line 181),
producing one DispatchRecord per opportunity in order. -/
def dispatch_loop (env : RunEnv) (candidate_info : Json) (total : Nat) :
    List Json → Nat → SessionState → SessionState × List DispatchRecord
  | [], _, st => (st, [])
  | job :: rest, index, st =>
    let s1 := dispatch_step env candidate_info total index job st
    let s2 := dispatch_loop env candidate_info total rest (index + 1) s1.1
    (s2.1, s1.2 :: s2.2)

structure RunResult where
  state : SessionState
  records : List DispatchRecord

/-- app.py lines 152-164: analysis log, resume parse, optional manual role
override, storing the parsed profile, completion log. Returns the updated
state and `candidate_info`. -/
def workflow_parse_stage (env : RunEnv) (resume_text : String) (st : SessionState) :
    SessionState × Json :=
  let st := append_log st "Analyzing resume content via LLM Agent..." false false
  let candidate_info := parse_resume_agent env.parseEnv resume_text
  let st := if env.manualRole ≠ "" then
      append_log st ("Applying manual role override: " ++ env.manualRole) false false
    else st
  let candidate_info := if env.manualRole ≠ "" then
      jsonSetKey candidate_info "role" (.str env.manualRole)
    else candidate_info
  let st := { st with parsed_resume := some candidate_info }
  let st := append_log st ("Analysis Complete -> Role: " ++
    pyStrD (jsonGet candidate_info "role") "None" ++ " | Level: " ++
    pyStrD (jsonGet candidate_info "experience_level") "None") false false
  (st, candidate_info)

/-- app.py lines 166-175: discovery log, discovery agent call, storing the
result, `jobs_identified := len(mock_jobs)`, discovery-count log. Returns
the updated state and the opportunity sequence. A discovery result that
decodes to a non-array crashes the Python rendering layer before the
dispatch loop; the model truncates such results to the empty sequence,
which no claim exercises. -/
def workflow_discovery_stage (env : RunEnv) (candidate_info : Json) (st : SessionState) :
    SessionState × JsonList :=
  let roleStr := pyStrD (jsonGet candidate_info "role") "None"
  let st := append_log st ("Initiating Discovery Agent for " ++ roleStr ++
    " positions in " ++ env.location ++ "...") false false
  let mock_jobs := job_discovery_agent env.discoveryEnv roleStr env.location
  let st := { st with mock_jobs := some mock_jobs }
  let opportunities := (match mock_jobs with | .arr xs => xs | _ => JsonList.nil)
  let st := { st with jobs_identified := opportunities.length }
  let st := append_log st ("Discovered " ++ toString opportunities.length ++
    " targeted opportunities.") false false
  (st, opportunities)

/-- app.py lines 226-235: interview-prep agent, storing the guide,
completion flag, final log. -/
def workflow_post_stage (env : RunEnv) (candidate_info : Json) (st : SessionState) :
    SessionState :=
  let st := append_log st "Initializing Post-Process Action: Interview Prep Agent..."
    false false
  let prep_guide := interview_prep_agent env.interviewEnv
    (pyStrD (jsonGet candidate_info "role") "None")
  let st := { st with interview_questions := some prep_guide }
  let st := append_log st "Interview Guide ready." false false
  let st := { st with workflow_completed := true }
  append_log st "🎉 ALL TASKS COMPLETED. Agent going to sleep." false false

/-- The workflow body behind the "Start Agentic Workflow" button
(app.py lines 131-235), assembled from the stages above. Pure UI rendering
(metrics widgets, dataframe, text areas, balloons) is not modelled. -/
def run_workflow (env : RunEnv) (st : SessionState) : RunResult :=
  if ¬env.smtpConfigured then
    ⟨append_log st "Workflow aborted: Missing SMTP credentials" true false, []⟩
  else
    let st := { st with workflow_started := true, workflow_completed := false, logs := [] }
    let st := append_log st "Initializing Agentic AI Workflow..." false false
    let st := append_log st "Reading PDF Resume..." false false
    let resume_text := extract_text_from_pdf env.pdf
    if resume_text = "" then
      ⟨append_log st "Failed to extract text from PDF." true false, []⟩
    else
      let parsed := workflow_parse_stage env resume_text st
      let disc := workflow_discovery_stage env parsed.2 parsed.1
      let looped := dispatch_loop env parsed.2 disc.2.length disc.2.toList 0 disc.1
      ⟨workflow_post_stage env parsed.2 looped.1, looped.2⟩

/-! ## Supporting lemmas about the application model -/

theorem startsList_self_append : ∀ (p rest : List Char), startsList p (p ++ rest) = true := by
  intro p
  induction p with
  | nil => intro rest; rfl
  | cons c cs ih => intro rest; simp [startsList, ih]

theorem startsList_append_left : ∀ (p a : List Char), startsList p a = true →
    ∀ b, startsList p (a ++ b) = true := by
  intro p
  induction p with
  | nil => intro a h b; rfl
  | cons c cs ih =>
      intro a h b
      cases a with
      | nil => exact absurd h (by simp [startsList])
      | cons a0 as =>
          simp only [startsList, Bool.and_eq_true, decide_eq_true_eq] at h
          simp [startsList, h.1, ih as h.2]

theorem hasSub_append_right : ∀ (pat a b : List Char), hasSub pat b = true →
    hasSub pat (a ++ b) = true := by
  intro pat a
  induction a with
  | nil => intro b h; simpa using h
  | cons c cs ih =>
      intro b h
      simp only [List.cons_append, hasSub, Bool.or_eq_true]
      exact Or.inr (ih b h)

theorem cover_fallback_starts (cand : Json) (company title : String) :
    pyStartsWith (cover_letter_fallback cand company title) "Dear" = true := by
  unfold pyStartsWith cover_letter_fallback
  simp only [String.data_append, List.append_assoc]
  exact startsList_append_left _ _ (by decide) _

theorem cover_fallback_marker (cand : Json) (company title : String) :
    pyContains (cover_letter_fallback cand company title) "A Dedicated Professional" = true := by
  unfold pyContains cover_letter_fallback
  simp only [String.data_append, List.append_assoc]
  repeat apply hasSub_append_right
  decide

theorem cover_letter_agent_quota {env : GenAIEnv} (hc : env.apiKeyConfigured = true)
    (hp : env.provider = .resourceExhausted) (cand : Json) (company title : String) :
    cover_letter_agent env cand company title = cover_letter_fallback cand company title := by
  simp [cover_letter_agent, call_gemini_with_fallback, configure_genai, hc, hp]

theorem append_log_fields (st : SessionState) (m : String) (e f : Bool) :
    (append_log st m e f).successful_dispatches = st.successful_dispatches ∧
    (append_log st m e f).jobs_identified = st.jobs_identified ∧
    (append_log st m e f).api_fallbacks = st.api_fallbacks + (if f then 1 else 0) ∧
    (append_log st m e f).logs = st.logs ++ [m] := by
  cases f <;> simp [append_log]

/-- Counter accounting for one dispatch iteration: `successful_dispatches`
grows by one exactly on a sent outcome, `api_fallbacks` by one exactly when
the fallback sniff fired, and `jobs_identified` is untouched. -/
theorem dispatch_step_spec (env : RunEnv) (cand : Json) (total index : Nat) (job : Json)
    (st : SessionState) :
    (dispatch_step env cand total index job st).1.successful_dispatches =
      st.successful_dispatches +
        (if (dispatch_step env cand total index job st).2.sent then 1 else 0) ∧
    (dispatch_step env cand total index job st).1.api_fallbacks =
      st.api_fallbacks +
        (if (dispatch_step env cand total index job st).2.used_fallback_sniffed then 1 else 0) ∧
    (dispatch_step env cand total index job st).1.jobs_identified = st.jobs_identified := by
  simp only [dispatch_step]
  repeat' split
  all_goals simp_all [append_log]

/-- The dispatch record of one iteration does not depend on the incoming
session state (only the metrics/log side of the state evolves). -/
theorem dispatch_step_record_state (env : RunEnv) (cand : Json) (total index : Nat) (job : Json)
    (st st' : SessionState) :
    (dispatch_step env cand total index job st).2 = (dispatch_step env cand total index job st').2 := by
  simp only [dispatch_step]
  repeat' split
  all_goals simp_all

/-- Loop accounting: one record per opportunity; `successful_dispatches`
grows by the number of sent records; `api_fallbacks` never decreases;
`jobs_identified` is untouched. -/
theorem dispatch_loop_spec (env : RunEnv) (cand : Json) (total : Nat) :
    ∀ (jobs : List Json) (index : Nat) (st : SessionState),
    (dispatch_loop env cand total jobs index st).2.length = jobs.length ∧
    (dispatch_loop env cand total jobs index st).1.successful_dispatches =
      st.successful_dispatches +
        ((dispatch_loop env cand total jobs index st).2.filter (fun r => r.sent)).length ∧
    st.api_fallbacks ≤ (dispatch_loop env cand total jobs index st).1.api_fallbacks ∧
    (dispatch_loop env cand total jobs index st).1.jobs_identified = st.jobs_identified := by
  intro jobs
  induction jobs with
  | nil => intro index st; simp [dispatch_loop]
  | cons job rest ih =>
      intro index st
      obtain ⟨hs1, hs2, hs3⟩ := dispatch_step_spec env cand total index job st
      obtain ⟨ih1, ih2, ih3, ih4⟩ := ih (index + 1) (dispatch_step env cand total index job st).1
      simp only [dispatch_loop, List.length_cons, List.filter_cons]
      refine ⟨by rw [ih1], ?_, ?_, by rw [ih4, hs3]⟩
      · rw [ih2, hs1]
        by_cases hsent : (dispatch_step env cand total index job st).2.sent
        · simp [hsent]
          omega
        · simp [hsent]
      · calc st.api_fallbacks ≤ (dispatch_step env cand total index job st).1.api_fallbacks := by
              rw [hs2]; omega
          _ ≤ _ := ih3

/-- The i-th record of the loop is the record `dispatch_step` computes for
the i-th opportunity at position `index + i` (records do not depend on the
threaded state, so `init_session_state` serves as the reference state). -/
theorem dispatch_loop_get (env : RunEnv) (cand : Json) (total : Nat) :
    ∀ (jobs : List Json) (index : Nat) (st : SessionState) (i : Nat) (h : i < jobs.length),
    (dispatch_loop env cand total jobs index st).2.get
        ⟨i, by rw [(dispatch_loop_spec env cand total jobs index st).1]; exact h⟩ =
      (dispatch_step env cand total (index + i) (jobs.get ⟨i, h⟩) init_session_state).2 := by
  intro jobs
  induction jobs with
  | nil => intro index st i h; exact absurd h (by simp)
  | cons job rest ih =>
      intro index st i h
      cases i with
      | zero =>
          simp only [dispatch_loop, List.get]
          rw [Nat.add_zero]
          exact dispatch_step_record_state env cand total index job st init_session_state
      | succ i =>
          simp only [dispatch_loop, List.get]
          rw [ih (index + 1) (dispatch_step env cand total index job st).1 i (by simpa using h)]
          have harith : index + 1 + i = index + (i + 1) := by omega
          rw [harith]

theorem gateway_noKey {env : GenAIEnv} (h : env.apiKeyConfigured = false)
    (p fb : String) (jf : Bool) :
    call_gemini_with_fallback env p fb jf = ⟨fb, [], [], false⟩ := by
  simp [call_gemini_with_fallback, configure_genai, h]

theorem gateway_quota {env : GenAIEnv} (hc : env.apiKeyConfigured = true)
    (hp : env.provider = .resourceExhausted) (p fb : String) (jf : Bool) :
    call_gemini_with_fallback env p fb jf =
      ⟨fb, ["Gemini API Quota Exceeded (429). Using Fallback Template Engine."], [], true⟩ := by
  simp [call_gemini_with_fallback, configure_genai, hc, hp]

theorem gateway_error {env : GenAIEnv} {m : String} (hc : env.apiKeyConfigured = true)
    (hp : env.provider = .otherError m) (p fb : String) (jf : Bool) :
    call_gemini_with_fallback env p fb jf = ⟨fb, [], ["Gemini API Error: " ++ m], true⟩ := by
  simp [call_gemini_with_fallback, configure_genai, hc, hp]

theorem gateway_success {env : GenAIEnv} {t : String} (hc : env.apiKeyConfigured = true)
    (hp : env.provider = .success t) (p fb : String) (jf : Bool) :
    call_gemini_with_fallback env p fb jf = ⟨t, [], [], true⟩ := by
  simp [call_gemini_with_fallback, configure_genai, hc, hp]

/-! ## The claims -/

/-- C1: for every prompt and fallback the Gateway returns a string and never
propagates a provider-side failure (the model is a total function into
`GatewayResult`): with no credential configured it returns the fallback
immediately with no provider call; on quota exhaustion it returns the
fallback; on any other provider error it returns the fallback. -/
theorem c1_gateway_fallback_total (env : GenAIEnv) (prompt fallback : String)
    (json_format : Bool) :
    (env.apiKeyConfigured = false →
      (call_gemini_with_fallback env prompt fallback json_format).text = fallback ∧
      (call_gemini_with_fallback env prompt fallback json_format).providerCalled = false) ∧
    (env.apiKeyConfigured = true → env.provider = .resourceExhausted →
      (call_gemini_with_fallback env prompt fallback json_format).text = fallback) ∧
    (∀ m, env.apiKeyConfigured = true → env.provider = .otherError m →
      (call_gemini_with_fallback env prompt fallback json_format).text = fallback) := by
  refine ⟨fun h => ?_, fun hc hp => ?_, fun m hc hp => ?_⟩
  · rw [gateway_noKey h]
    exact ⟨rfl, rfl⟩
  · rw [gateway_quota hc hp]
  · rw [gateway_error hc hp]

/-- Witness for C1 at concrete inputs: all three degraded paths return the
fallback. -/
theorem c1_witness :
    ((call_gemini_with_fallback ⟨false, .success "live"⟩ "p" "fb" true).text = "fb" ∧
      (call_gemini_with_fallback ⟨false, .success "live"⟩ "p" "fb" true).providerCalled = false) ∧
    (call_gemini_with_fallback ⟨true, .resourceExhausted⟩ "p" "fb" false).text = "fb" ∧
    (call_gemini_with_fallback ⟨true, .otherError "boom"⟩ "p" "fb" false).text = "fb" :=
  ⟨(c1_gateway_fallback_total ⟨false, .success "live"⟩ "p" "fb" true).1 rfl,
   (c1_gateway_fallback_total ⟨true, .resourceExhausted⟩ "p" "fb" false).2.1 rfl rfl,
   (c1_gateway_fallback_total ⟨true, .otherError "boom"⟩ "p" "fb" false).2.2 "boom" rfl rfl⟩

/-- C3 counterexample: a gateway response consisting of the two-character
empty-object literal is well-formed JSON that violates the required schema
(no `role`, `skills`, `experience_level` keys), yet `parse_resume_agent`
returns the empty object as-is rather than the fallback CandidateProfile:
the code validates nothing beyond decodability. -/
theorem c3_counterexample :
    parse_resume_agent ⟨true, .success "\x7b\x7d"⟩ "resume" = Json.obj .nil ∧
    json_loads "\x7b\x7d" = some (Json.obj .nil) ∧
    membersGet JsonMembers.nil "role" = none ∧
    Json.obj .nil ≠ parse_resume_fallback :=
  ⟨rfl, rfl, rfl, by decide⟩

/-- C3 (amended): `parse_resume_agent` returns exactly the fallback
CandidateProfile — equal to parsing the fallback JSON string directly —
whenever the gateway degrades to the fallback string or the response fails
JSON decoding, and never signals an error upward (it is total); but a
response that decodes as JSON is returned as-is with no schema validation,
including objects with missing or extra keys and non-objects. -/
theorem c3_parse_resume_decode_policy (env : GenAIEnv) (resume_text : String) :
    (env.apiKeyConfigured = false →
      parse_resume_agent env resume_text = parse_resume_fallback) ∧
    (env.apiKeyConfigured = true → env.provider = .resourceExhausted →
      parse_resume_agent env resume_text = parse_resume_fallback) ∧
    (∀ m, env.apiKeyConfigured = true → env.provider = .otherError m →
      parse_resume_agent env resume_text = parse_resume_fallback) ∧
    (∀ t, env.apiKeyConfigured = true → env.provider = .success t → json_loads t = none →
      parse_resume_agent env resume_text = parse_resume_fallback) ∧
    (∀ t v, env.apiKeyConfigured = true → env.provider = .success t → json_loads t = some v →
      parse_resume_agent env resume_text = v) ∧
    json_loads (json_dumps parse_resume_fallback) = some parse_resume_fallback := by
  refine ⟨fun h => ?_, fun hc hp => ?_, fun m hc hp => ?_, fun t hc hp hn => ?_,
    fun t v hc hp hs => ?_, json_loads_dumps parse_resume_fallback⟩
  · simp [parse_resume_agent, gateway_noKey h, json_loads_dumps]
  · simp [parse_resume_agent, gateway_quota hc hp, json_loads_dumps]
  · simp [parse_resume_agent, gateway_error hc hp, json_loads_dumps]
  · simp [parse_resume_agent, gateway_success hc hp, hn, json_loads_dumps]
  · simp [parse_resume_agent, gateway_success hc hp, hs]

/-- Witness for C3 (amended): an undecodable response yields exactly the
fallback profile, and that profile equals the direct parse of the fallback
string. -/
theorem c3_witness :
    parse_resume_agent ⟨true, .success "not json"⟩ "resume" = parse_resume_fallback ∧
    json_loads (json_dumps parse_resume_fallback) = some parse_resume_fallback :=
  ⟨(c3_parse_resume_decode_policy ⟨true, .success "not json"⟩ "resume").2.2.2.1
      "not json" rfl rfl (by rfl),
   (c3_parse_resume_decode_policy ⟨true, .success "not json"⟩ "resume").2.2.2.2.2⟩

/-- Forced-fallback condition for one gateway call: no credential, provider
quota exhaustion, any other provider error, or a provider response that
fails JSON decoding. -/
def forcedFallback (env : GenAIEnv) : Prop :=
  env.apiKeyConfigured = false ∨ env.provider = .resourceExhausted ∨
  (∃ m, env.provider = .otherError m) ∨
  (∃ t, env.provider = .success t ∧ json_loads t = none)

/-- C4: under forced fallback, `job_discovery_agent` returns, for every
role string, exactly 3 opportunities in order with job titles
`"Senior " ++ role`, `"Lead " ++ role`, `role` and the fixed example
contact addresses. -/
theorem c4_discovery_forced_fallback (role location : String) (env : GenAIEnv)
    (h : forcedFallback env) :
    job_discovery_agent env role location =
      Json.arr (.cons (.obj (.cons "company_name" (.str "TechNova Solutions")
          (.cons "job_title" (.str ("Senior " ++ role))
          (.cons "contact_email" (.str "careers@technova.example.com") .nil))))
        (.cons (.obj (.cons "company_name" (.str "Quantum Innovations")
          (.cons "job_title" (.str ("Lead " ++ role))
          (.cons "contact_email" (.str "hr@quantuminnovations.example.com") .nil))))
        (.cons (.obj (.cons "company_name" (.str "CloudNine Systems")
          (.cons "job_title" (.str role)
          (.cons "contact_email" (.str "jobs@cloudninesystems.example.com") .nil))))
        .nil))) := by
  show job_discovery_agent env role location = job_discovery_fallback role
  by_cases hc : env.apiKeyConfigured = true
  · rcases h with h | h | ⟨m, h⟩ | ⟨t, h, hn⟩
    · rw [hc] at h; exact absurd h (by simp)
    · simp [job_discovery_agent, gateway_quota hc h, json_loads_dumps]
    · simp [job_discovery_agent, gateway_error hc h, json_loads_dumps]
    · simp [job_discovery_agent, gateway_success hc h, hn, json_loads_dumps]
  · have hc' : env.apiKeyConfigured = false := by
      cases hcv : env.apiKeyConfigured
      · rfl
      · exact absurd hcv hc
    simp [job_discovery_agent, gateway_noKey hc', json_loads_dumps]

/-- Witness for C4: `DiscoverJobs("Data Scientist", "Remote")` under a
missing credential yields the titles "Senior Data Scientist",
"Lead Data Scientist", "Data Scientist". -/
theorem c4_witness :
    job_discovery_agent ⟨false, .success "live"⟩ "Data Scientist" "Remote" =
      Json.arr (.cons (.obj (.cons "company_name" (.str "TechNova Solutions")
          (.cons "job_title" (.str "Senior Data Scientist")
          (.cons "contact_email" (.str "careers@technova.example.com") .nil))))
        (.cons (.obj (.cons "company_name" (.str "Quantum Innovations")
          (.cons "job_title" (.str "Lead Data Scientist")
          (.cons "contact_email" (.str "hr@quantuminnovations.example.com") .nil))))
        (.cons (.obj (.cons "company_name" (.str "CloudNine Systems")
          (.cons "job_title" (.str "Data Scientist")
          (.cons "contact_email" (.str "jobs@cloudninesystems.example.com") .nil))))
        .nil))) := by
  have h := c4_discovery_forced_fallback "Data Scientist" "Remote" ⟨false, .success "live"⟩
    (Or.inl rfl)
  exact h

/-- C7: a sandbox/test recipient gets the short simulated delay (3 time
units) and bypasses the real transport entirely — in particular the real
20-unit rate-limit delay is never slept for it; a real recipient gets the
fixed 20-unit delay enforced (inside `send_email_with_attachment`, before
the SMTP send) and the real transport invoked. -/
theorem c7_delays (env : RunEnv) (cand : Json) (total index : Nat) (job : Json)
    (st : SessionState) :
    (dispatch_step env cand total index job st).2.recipient =
      pyStrD (jsonGet job "contact_email") "hr@example.com" ∧
    (pyContains (pyStrD (jsonGet job "contact_email") "hr@example.com") "example" = true →
      (dispatch_step env cand total index job st).2.delayUsed = mock_send_delay ∧
      (dispatch_step env cand total index job st).2.usedRealTransport = false ∧
      (dispatch_step env cand total index job st).2.delayUsed ≠ smtp_rate_limit_delay) ∧
    (pyContains (pyStrD (jsonGet job "contact_email") "hr@example.com") "example" = false →
      (dispatch_step env cand total index job st).2.delayUsed = smtp_rate_limit_delay ∧
      (dispatch_step env cand total index job st).2.usedRealTransport = true) := by
  simp only [dispatch_step]
  repeat' split
  all_goals simp_all [mock_send_delay, smtp_rate_limit_delay]

/-- Witness for C7 at a concrete sandbox opportunity and a concrete real
opportunity. -/
theorem c7_witness :
    ((dispatch_step ⟨true, .pages [], ⟨false, .success ""⟩, ⟨false, .success ""⟩,
        fun _ => ⟨false, .success ""⟩, ⟨false, .success ""⟩, fun _ => .delivered, "", "Remote"⟩
        Json.null 1 0
        (Json.obj (.cons "contact_email" (.str "hr@sandbox.example.com") .nil))
        init_session_state).2.delayUsed = mock_send_delay ∧
      (dispatch_step ⟨true, .pages [], ⟨false, .success ""⟩, ⟨false, .success ""⟩,
        fun _ => ⟨false, .success ""⟩, ⟨false, .success ""⟩, fun _ => .delivered, "", "Remote"⟩
        Json.null 1 0
        (Json.obj (.cons "contact_email" (.str "hr@sandbox.example.com") .nil))
        init_session_state).2.usedRealTransport = false ∧
      (dispatch_step ⟨true, .pages [], ⟨false, .success ""⟩, ⟨false, .success ""⟩,
        fun _ => ⟨false, .success ""⟩, ⟨false, .success ""⟩, fun _ => .delivered, "", "Remote"⟩
        Json.null 1 0
        (Json.obj (.cons "contact_email" (.str "hr@sandbox.example.com") .nil))
        init_session_state).2.delayUsed ≠ smtp_rate_limit_delay) ∧
    ((dispatch_step ⟨true, .pages [], ⟨false, .success ""⟩, ⟨false, .success ""⟩,
        fun _ => ⟨false, .success ""⟩, ⟨false, .success ""⟩, fun _ => .delivered, "", "Remote"⟩
        Json.null 1 0
        (Json.obj (.cons "contact_email" (.str "hr@bigcorp.com") .nil))
        init_session_state).2.delayUsed = smtp_rate_limit_delay ∧
      (dispatch_step ⟨true, .pages [], ⟨false, .success ""⟩, ⟨false, .success ""⟩,
        fun _ => ⟨false, .success ""⟩, ⟨false, .success ""⟩, fun _ => .delivered, "", "Remote"⟩
        Json.null 1 0
        (Json.obj (.cons "contact_email" (.str "hr@bigcorp.com") .nil))
        init_session_state).2.usedRealTransport = true) :=
  ⟨(c7_delays _ Json.null 1 0
      (Json.obj (.cons "contact_email" (.str "hr@sandbox.example.com") .nil))
      init_session_state).2.1 (by decide),
   (c7_delays _ Json.null 1 0
      (Json.obj (.cons "contact_email" (.str "hr@bigcorp.com") .nil))
      init_session_state).2.2 (by decide)⟩

/-- C10 (implicit): an opportunity is treated as a sandbox send exactly
when the substring "example" occurs anywhere in its contact address — so a
real-looking address that merely contains "example" is silently simulated
and never contacted — and every simulated send unconditionally counts as a
successful dispatch, incrementing `successful_dispatches` with no transport
attempt, for every transport oracle. -/
theorem c10_sandbox_substring (env : RunEnv) (cand : Json) (total index : Nat) (job : Json)
    (st : SessionState) :
    (pyContains (pyStrD (jsonGet job "contact_email") "hr@example.com") "example" = true →
      (dispatch_step env cand total index job st).2.sent = true ∧
      (dispatch_step env cand total index job st).2.usedRealTransport = false ∧
      (dispatch_step env cand total index job st).1.successful_dispatches =
        st.successful_dispatches + 1) ∧
    (pyContains (pyStrD (jsonGet job "contact_email") "hr@example.com") "example" = false →
      (dispatch_step env cand total index job st).2.usedRealTransport = true ∧
      (dispatch_step env cand total index job st).2.sent =
        send_email_with_attachment (env.transport index)) := by
  simp only [dispatch_step]
  repeat' split
  all_goals simp_all [append_log]

/-- Witness for C10: a real-looking address containing "example"
("recruiting@example-corp.com") is simulated as sent and counted as a
successful dispatch even though the transport oracle would fail. -/
theorem c10_witness :
    (dispatch_step ⟨true, .pages [], ⟨false, .success ""⟩, ⟨false, .success ""⟩,
        fun _ => ⟨false, .success ""⟩, ⟨false, .success ""⟩, fun _ => .authError, "", "Remote"⟩
        Json.null 1 0
        (Json.obj (.cons "contact_email" (.str "recruiting@example-corp.com") .nil))
        init_session_state).2.sent = true ∧
    (dispatch_step ⟨true, .pages [], ⟨false, .success ""⟩, ⟨false, .success ""⟩,
        fun _ => ⟨false, .success ""⟩, ⟨false, .success ""⟩, fun _ => .authError, "", "Remote"⟩
        Json.null 1 0
        (Json.obj (.cons "contact_email" (.str "recruiting@example-corp.com") .nil))
        init_session_state).2.usedRealTransport = false ∧
    (dispatch_step ⟨true, .pages [], ⟨false, .success ""⟩, ⟨false, .success ""⟩,
        fun _ => ⟨false, .success ""⟩, ⟨false, .success ""⟩, fun _ => .authError, "", "Remote"⟩
        Json.null 1 0
        (Json.obj (.cons "contact_email" (.str "recruiting@example-corp.com") .nil))
        init_session_state).1.successful_dispatches = 1 :=
  (c10_sandbox_substring _ Json.null 1 0
      (Json.obj (.cons "contact_email" (.str "recruiting@example-corp.com") .nil))
      init_session_state).1 (by decide)

/-- C6: the dispatch loop processes each of the N discovered opportunities
exactly once, in discovery order — the i-th record is the one
`dispatch_step` computes for the i-th opportunity at index i — it runs to
completion for every transport oracle (including all-fail), and
`successful_dispatches` grows by exactly the number of records with a Sent
outcome and not otherwise. -/
theorem c6_dispatch_loop_processes_all (env : RunEnv) (cand : Json) (total : Nat)
    (jobs : List Json) (st : SessionState) :
    (dispatch_loop env cand total jobs 0 st).2.length = jobs.length ∧
    (∀ i (h : i < jobs.length),
      (dispatch_loop env cand total jobs 0 st).2.get
          ⟨i, by rw [(dispatch_loop_spec env cand total jobs 0 st).1]; exact h⟩ =
        (dispatch_step env cand total i (jobs.get ⟨i, h⟩) init_session_state).2) ∧
    (dispatch_loop env cand total jobs 0 st).1.successful_dispatches =
      st.successful_dispatches +
        ((dispatch_loop env cand total jobs 0 st).2.filter (fun r => r.sent)).length := by
  refine ⟨(dispatch_loop_spec env cand total jobs 0 st).1, fun i h => ?_,
    (dispatch_loop_spec env cand total jobs 0 st).2.1⟩
  have hg := dispatch_loop_get env cand total jobs 0 st i h
  simpa using hg

def jobA : Json :=
  .obj (.cons "company_name" (.str "A Corp") (.cons "job_title" (.str "Dev")
    (.cons "contact_email" (.str "hr@acorp.com") .nil)))

def jobB : Json :=
  .obj (.cons "company_name" (.str "B Corp") (.cons "job_title" (.str "Ops")
    (.cons "contact_email" (.str "jobs@bcorp.com") .nil)))

def plainGenAI : GenAIEnv := ⟨false, .success ""⟩

/-- A run whose every transport call fails with an authentication error. -/
def allFailEnv : RunEnv :=
  ⟨true, .pages [], plainGenAI, plainGenAI, fun _ => plainGenAI, plainGenAI,
   fun _ => .authError, "", "Remote"⟩

/-- Witness for C6: two real-address opportunities with an all-failing
transport — the loop still completes, produces exactly 2 records in order,
and `successful_dispatches` grows only by the number of Sent records. -/
theorem c6_witness :
    (dispatch_loop allFailEnv Json.null 2 [jobA, jobB] 0 init_session_state).2.length = 2 ∧
    (dispatch_loop allFailEnv Json.null 2 [jobA, jobB] 0 init_session_state).2.get
        ⟨0, by
          rw [(dispatch_loop_spec allFailEnv Json.null 2 [jobA, jobB] 0
            init_session_state).1]
          decide⟩ =
      (dispatch_step allFailEnv Json.null 2 0 jobA init_session_state).2 ∧
    (dispatch_loop allFailEnv Json.null 2 [jobA, jobB] 0
        init_session_state).1.successful_dispatches =
      0 + ((dispatch_loop allFailEnv Json.null 2 [jobA, jobB] 0
        init_session_state).2.filter (fun r => r.sent)).length := by
  have h := c6_dispatch_loop_processes_all allFailEnv Json.null 2 [jobA, jobB]
    init_session_state
  refine ⟨by rw [h.1]; rfl, ?_, ?_⟩
  · have h0 := h.2.1 0 (by decide)
    exact h0
  · exact h.2.2

/-- Under quota exhaustion at the cover-letter call site, the generated
letter is the fallback template, so the sniff in the dispatch loop fires. -/
theorem dispatch_step_sniff_quota (env : RunEnv) (cand : Json) (total index : Nat)
    (job : Json) (st : SessionState) (hc : (env.coverEnv index).apiKeyConfigured = true)
    (hp : (env.coverEnv index).provider = .resourceExhausted) :
    (dispatch_step env cand total index job st).2.used_fallback_sniffed = true := by
  simp only [dispatch_step, cover_letter_agent_quota hc hp]
  repeat' split
  all_goals simp_all [cover_fallback_starts, cover_fallback_marker]

def envQuota : GenAIEnv := ⟨true, .resourceExhausted⟩

/-- A full run in which the resume-parse, discovery and interview-prep
gateway calls all hit provider quota exhaustion, while the cover-letter
calls succeed with live (non-fallback) text. -/
def quotaRunEnv : RunEnv :=
  ⟨true, .pages ["resume text"], envQuota, envQuota, fun _ => ⟨true, .success "Hello"⟩,
   envQuota, fun _ => .authError, "", "Remote"⟩

/-- C2 counterexample: in `quotaRunEnv` the resume-parse call site hits
quota exhaustion and degrades to the fallback (second conjunct shows the
gateway call the workflow makes returns the fallback string), yet after the
whole run `api_fallbacks` is still 0: quota-exhaustion fallbacks at the
parse, discovery and interview sites never increment the metric — only the
cover-letter text sniff does. -/
theorem c2_counterexample :
    quotaRunEnv.parseEnv = ⟨true, .resourceExhausted⟩ ∧
    (call_gemini_with_fallback quotaRunEnv.parseEnv (resume_prompt "resume text\n")
        (json_dumps parse_resume_fallback) true).text = json_dumps parse_resume_fallback ∧
    (run_workflow quotaRunEnv init_session_state).state.api_fallbacks = 0 ∧
    (run_workflow quotaRunEnv init_session_state).state.workflow_completed = true :=
  ⟨rfl, rfl, rfl, rfl⟩

/-- C2 (amended): a quota-exhaustion gateway call always returns the
fallback together with a user-visible warning, but it does not touch
`api_fallbacks`; the metric is incremented (by exactly one per opportunity)
only at the cover-letter call site, where the dispatch loop sniffs the
generated letter for the fallback-template markers. -/
theorem c2_quota_warning_and_metric (env : GenAIEnv) (prompt fallback : String)
    (json_format : Bool) (renv : RunEnv) (cand job : Json) (total index : Nat)
    (st : SessionState) :
    (env.apiKeyConfigured = true → env.provider = .resourceExhausted →
      (call_gemini_with_fallback env prompt fallback json_format).text = fallback ∧
      (call_gemini_with_fallback env prompt fallback json_format).warnings =
        ["Gemini API Quota Exceeded (429). Using Fallback Template Engine."]) ∧
    ((renv.coverEnv index).apiKeyConfigured = true →
      (renv.coverEnv index).provider = .resourceExhausted →
      (dispatch_step renv cand total index job st).1.api_fallbacks =
        st.api_fallbacks + 1) := by
  constructor
  · intro hc hp
    rw [gateway_quota hc hp]
    exact ⟨rfl, rfl⟩
  · intro hc hp
    have hs := (dispatch_step_spec renv cand total index job st).2.1
    rw [dispatch_step_sniff_quota renv cand total index job st hc hp] at hs
    simpa using hs

/-- Witness for C2 (amended) at concrete inputs. -/
theorem c2_witness :
    ((call_gemini_with_fallback ⟨true, .resourceExhausted⟩ "p" "fb" true).text = "fb" ∧
      (call_gemini_with_fallback ⟨true, .resourceExhausted⟩ "p" "fb" true).warnings =
        ["Gemini API Quota Exceeded (429). Using Fallback Template Engine."]) ∧
    (dispatch_step ⟨true, .pages [], plainGenAI, plainGenAI, fun _ => envQuota, plainGenAI,
        fun _ => .authError, "", "Remote"⟩ Json.null 1 0 jobA
        init_session_state).1.api_fallbacks = 0 + 1 :=
  ⟨(c2_quota_warning_and_metric ⟨true, .resourceExhausted⟩ "p" "fb" true
      ⟨true, .pages [], plainGenAI, plainGenAI, fun _ => envQuota, plainGenAI,
        fun _ => .authError, "", "Remote"⟩ Json.null jobA 1 0 init_session_state).1 rfl rfl,
   (c2_quota_warning_and_metric ⟨true, .resourceExhausted⟩ "p" "fb" true
      ⟨true, .pages [], plainGenAI, plainGenAI, fun _ => envQuota, plainGenAI,
        fun _ => .authError, "", "Remote"⟩ Json.null jobA 1 0 init_session_state).2 rfl rfl⟩

theorem append_log_successful (st : SessionState) (m : String) (e f : Bool) :
    (append_log st m e f).successful_dispatches = st.successful_dispatches := by
  cases f <;> simp [append_log]

theorem append_log_jobs (st : SessionState) (m : String) (e f : Bool) :
    (append_log st m e f).jobs_identified = st.jobs_identified := by
  cases f <;> simp [append_log]

theorem append_log_api_false (st : SessionState) (m : String) (e : Bool) :
    (append_log st m e false).api_fallbacks = st.api_fallbacks := by
  simp [append_log]

theorem dispatch_loop_len (env : RunEnv) (cand : Json) (total : Nat) (jobs : List Json)
    (index : Nat) (st : SessionState) :
    (dispatch_loop env cand total jobs index st).2.length = jobs.length :=
  (dispatch_loop_spec env cand total jobs index st).1

theorem dispatch_loop_successful (env : RunEnv) (cand : Json) (total : Nat) (jobs : List Json)
    (index : Nat) (st : SessionState) :
    (dispatch_loop env cand total jobs index st).1.successful_dispatches =
      st.successful_dispatches +
        ((dispatch_loop env cand total jobs index st).2.filter (fun r => r.sent)).length :=
  (dispatch_loop_spec env cand total jobs index st).2.1

theorem dispatch_loop_api_mono (env : RunEnv) (cand : Json) (total : Nat) (jobs : List Json)
    (index : Nat) (st : SessionState) :
    st.api_fallbacks ≤ (dispatch_loop env cand total jobs index st).1.api_fallbacks :=
  (dispatch_loop_spec env cand total jobs index st).2.2.1

theorem dispatch_loop_jobs (env : RunEnv) (cand : Json) (total : Nat) (jobs : List Json)
    (index : Nat) (st : SessionState) :
    (dispatch_loop env cand total jobs index st).1.jobs_identified = st.jobs_identified :=
  (dispatch_loop_spec env cand total jobs index st).2.2.2

theorem workflow_parse_stage_counters (env : RunEnv) (resume_text : String)
    (st : SessionState) :
    (workflow_parse_stage env resume_text st).1.jobs_identified = st.jobs_identified ∧
    (workflow_parse_stage env resume_text st).1.successful_dispatches =
      st.successful_dispatches ∧
    (workflow_parse_stage env resume_text st).1.api_fallbacks = st.api_fallbacks := by
  simp only [workflow_parse_stage]
  by_cases h : env.manualRole ≠ "" <;> simp [h, append_log]

theorem workflow_discovery_stage_counters (env : RunEnv) (cand : Json) (st : SessionState) :
    (workflow_discovery_stage env cand st).1.jobs_identified =
      (workflow_discovery_stage env cand st).2.length ∧
    (workflow_discovery_stage env cand st).1.successful_dispatches =
      st.successful_dispatches ∧
    (workflow_discovery_stage env cand st).1.api_fallbacks = st.api_fallbacks := by
  simp [workflow_discovery_stage, append_log]

theorem workflow_post_stage_counters (env : RunEnv) (cand : Json) (st : SessionState) :
    (workflow_post_stage env cand st).jobs_identified = st.jobs_identified ∧
    (workflow_post_stage env cand st).successful_dispatches = st.successful_dispatches ∧
    (workflow_post_stage env cand st).api_fallbacks = st.api_fallbacks ∧
    (workflow_post_stage env cand st).workflow_completed = true := by
  simp [workflow_post_stage, append_log]

/-- Accounting over a full non-aborted run: `jobs_identified` equals the
number of dispatch records produced, `successful_dispatches` grows by
exactly the number of Sent records, and `api_fallbacks` never decreases. -/
theorem run_workflow_happy (env : RunEnv) (st : SessionState)
    (hs : env.smtpConfigured = true) (hx : ¬extract_text_from_pdf env.pdf = "") :
    (run_workflow env st).state.jobs_identified = (run_workflow env st).records.length ∧
    (run_workflow env st).state.successful_dispatches =
      st.successful_dispatches +
        ((run_workflow env st).records.filter (fun r => r.sent)).length ∧
    st.api_fallbacks ≤ (run_workflow env st).state.api_fallbacks := by
  have hns : ¬¬env.smtpConfigured = true := by simp [hs]
  simp only [run_workflow, if_neg hns, if_neg hx]
  set srec : SessionState := { st with workflow_started := true, workflow_completed := false, logs := [] } with hsrec
  set st0 : SessionState := append_log (append_log srec "Initializing Agentic AI Workflow..." false false) "Reading PDF Resume..." false false with hst0
  set parsed := workflow_parse_stage env (extract_text_from_pdf env.pdf) st0 with hparsed
  set disc := workflow_discovery_stage env parsed.2 parsed.1 with hdisc
  set looped := dispatch_loop env parsed.2 disc.2.length disc.2.toList 0 disc.1 with hlooped
  obtain ⟨hpj, hps, hpa⟩ := workflow_parse_stage_counters env (extract_text_from_pdf env.pdf) st0
  obtain ⟨hdj, hds, hda⟩ := workflow_discovery_stage_counters env parsed.2 parsed.1
  obtain ⟨hoj, hos, hoa, -⟩ := workflow_post_stage_counters env parsed.2 looped.1
  have hs0s : st0.successful_dispatches = st.successful_dispatches := by
    rw [hst0, append_log_successful, append_log_successful, hsrec]
  have hs0a : st0.api_fallbacks = st.api_fallbacks := by
    rw [hst0, append_log_api_false, append_log_api_false, hsrec]
  refine ⟨?_, ?_, ?_⟩
  · rw [hoj, hlooped, dispatch_loop_jobs, dispatch_loop_len, hdisc, hdj]
    rfl
  · rw [hos, hlooped, dispatch_loop_successful, hdisc, hds, hparsed, hps, hs0s]
  · rw [hoa]
    have hdisc1 : disc.1.api_fallbacks = st.api_fallbacks := by
      rw [hdisc, hda, hparsed, hpa, hs0a]
    calc st.api_fallbacks = disc.1.api_fallbacks := hdisc1.symm
      _ ≤ looped.1.api_fallbacks := by
          rw [hlooped]
          exact dispatch_loop_api_mono env parsed.2 disc.2.length disc.2.toList 0 disc.1

/-- A run configured with SMTP credentials and a readable PDF in which no
Gemini credential is configured, so every agent degrades to its fallback.
All three fallback opportunities carry `example` addresses, so all three
dispatches are simulated and count as successful. -/
def noKeyRunEnv : RunEnv :=
  ⟨true, .pages ["resume text"], plainGenAI, plainGenAI, fun _ => plainGenAI, plainGenAI,
   fun _ => .authError, "", "Remote"⟩

/-- C5 counterexample: the metrics are never reset between runs (only the
logs are cleared), so on the second consecutive run of the same session
`successful_dispatches` reaches 6 while `jobs_identified` is 3 — the
claimed invariant `successful_dispatches <= jobs_identified` fails within
that run. -/
theorem c5_counterexample :
    (run_workflow noKeyRunEnv init_session_state).state.jobs_identified = 3 ∧
    (run_workflow noKeyRunEnv init_session_state).state.successful_dispatches = 3 ∧
    (run_workflow noKeyRunEnv
        (run_workflow noKeyRunEnv init_session_state).state).state.jobs_identified = 3 ∧
    (run_workflow noKeyRunEnv
        (run_workflow noKeyRunEnv init_session_state).state).state.successful_dispatches = 6 ∧
    ¬((run_workflow noKeyRunEnv
          (run_workflow noKeyRunEnv init_session_state).state).state.successful_dispatches ≤
        (run_workflow noKeyRunEnv
          (run_workflow noKeyRunEnv init_session_state).state).state.jobs_identified) := by
  refine ⟨rfl, rfl, rfl, rfl, ?_⟩
  intro h
  rw [show (run_workflow noKeyRunEnv
      (run_workflow noKeyRunEnv init_session_state).state).state.successful_dispatches = 6
      from rfl,
    show (run_workflow noKeyRunEnv
      (run_workflow noKeyRunEnv init_session_state).state).state.jobs_identified = 3
      from rfl] at h
  omega

/-- C5 (amended): in a run that starts with `successful_dispatches = 0`
(such as the first run of a session — the counters are not reset between
runs, so later runs can violate the bound, see the counterexample) and that
reaches discovery, the final state satisfies `jobs_identified` = number of
discovered opportunities (= dispatch records) and
`successful_dispatches ≤ jobs_identified`; and in every run, aborted or
not, `api_fallbacks` is monotonically non-decreasing. -/
theorem c5_metrics_invariants (env : RunEnv) (st : SessionState) :
    (env.smtpConfigured = true → ¬extract_text_from_pdf env.pdf = "" →
      (run_workflow env st).state.jobs_identified = (run_workflow env st).records.length ∧
      (st.successful_dispatches = 0 →
        (run_workflow env st).state.successful_dispatches ≤
          (run_workflow env st).state.jobs_identified)) ∧
    st.api_fallbacks ≤ (run_workflow env st).state.api_fallbacks := by
  constructor
  · intro hs hx
    obtain ⟨h1, h2, -⟩ := run_workflow_happy env st hs hx
    refine ⟨h1, fun h0 => ?_⟩
    rw [h1, h2, h0]
    have := List.length_filter_le (fun r => r.sent) (run_workflow env st).records
    omega
  · by_cases hs : env.smtpConfigured = true
    · by_cases hx : extract_text_from_pdf env.pdf = ""
      · have hns : ¬¬env.smtpConfigured = true := by simp [hs]
        simp only [run_workflow, if_neg hns, if_pos hx]
        simp [append_log]
      · exact (run_workflow_happy env st hs hx).2.2
    · have hs' : ¬env.smtpConfigured = true := hs
      simp only [run_workflow, if_pos hs']
      simp [append_log]

/-- Witness for C5 (amended), on the first run of a fresh session. -/
theorem c5_witness :
    (run_workflow noKeyRunEnv init_session_state).state.jobs_identified =
      (run_workflow noKeyRunEnv init_session_state).records.length ∧
    (run_workflow noKeyRunEnv init_session_state).state.successful_dispatches ≤
      (run_workflow noKeyRunEnv init_session_state).state.jobs_identified ∧
    init_session_state.api_fallbacks ≤
      (run_workflow noKeyRunEnv init_session_state).state.api_fallbacks := by
  have h := c5_metrics_invariants noKeyRunEnv init_session_state
  have h1 := h.1 rfl (by intro hcon; exact absurd hcon (by decide))
  exact ⟨h1.1, h1.2 rfl, h.2⟩

theorem foldl_append_log (msgs : List String) : ∀ st : SessionState,
    (msgs.foldl (fun s m => append_log s m false false) st).logs = st.logs ++ msgs := by
  induction msgs with
  | nil => intro st; simp
  | cons m ms ih =>
      intro st
      rw [List.foldl_cons, ih]
      simp [append_log]

/-- C8: after appending any number of log entries within a run (e.g. 1000
sequential messages), the log as exposed by `render_logs` retains at most
50 entries, and they are exactly the most recent 50 in append order —
`logs[-50:]`, the suffix of the full append-order list — older entries
being silently dropped from the view. -/
theorem c8_log_retention (msgs : List String) (st : SessionState) :
    (msgs.foldl (fun s m => append_log s m false false) st).logs = st.logs ++ msgs ∧
    render_logs_view (msgs.foldl (fun s m => append_log s m false false) st) =
      (st.logs ++ msgs).drop ((st.logs ++ msgs).length - 50) ∧
    (render_logs_view (msgs.foldl (fun s m => append_log s m false false) st)).length ≤ 50 ∧
    (50 ≤ (st.logs ++ msgs).length →
      (render_logs_view (msgs.foldl (fun s m => append_log s m false false) st)).length = 50) := by
  have h := foldl_append_log msgs st
  refine ⟨h, by rw [render_logs_view, h], ?_, fun hbig => ?_⟩
  · rw [render_logs_view, h, List.length_drop]
    omega
  · rw [render_logs_view, h, List.length_drop]
    omega

/-- Witness for C8: 1000 messages appended to a fresh session leave exactly
the most recent 50 in the rendered log. -/
theorem c8_witness :
    (render_logs_view ((List.replicate 1000 "msg").foldl
        (fun s m => append_log s m false false) init_session_state)).length = 50 ∧
    render_logs_view ((List.replicate 1000 "msg").foldl
        (fun s m => append_log s m false false) init_session_state) =
      (init_session_state.logs ++ List.replicate 1000 "msg").drop
        ((init_session_state.logs ++ List.replicate 1000 "msg").length - 50) :=
  ⟨(c8_log_retention (List.replicate 1000 "msg") init_session_state).2.2.2 (by simp),
   (c8_log_retention (List.replicate 1000 "msg") init_session_state).2.1⟩

/-- C9: text extraction never raises — any exception from the PDF library
yields the empty string — and an empty extraction result is fatal to the
run: a user-visible error is logged and the workflow returns before resume
parsing, discovery and dispatch, leaving all dispatch counters and stored
results untouched. -/
theorem c9_extraction_failure_aborts :
    (∀ m, extract_text_from_pdf (.exn m) = "") ∧
    (∀ (env : RunEnv) (st : SessionState), env.smtpConfigured = true →
      extract_text_from_pdf env.pdf = "" →
      (run_workflow env st).records = [] ∧
      (run_workflow env st).state.jobs_identified = st.jobs_identified ∧
      (run_workflow env st).state.successful_dispatches = st.successful_dispatches ∧
      (run_workflow env st).state.api_fallbacks = st.api_fallbacks ∧
      (run_workflow env st).state.parsed_resume = st.parsed_resume ∧
      (run_workflow env st).state.mock_jobs = st.mock_jobs ∧
      (run_workflow env st).state.workflow_completed = false ∧
      (run_workflow env st).state.logs.getLast? = some "Failed to extract text from PDF.") := by
  refine ⟨fun m => rfl, fun env st hs hx => ?_⟩
  have hns : ¬¬env.smtpConfigured = true := by simp [hs]
  simp only [run_workflow, if_neg hns, if_pos hx]
  simp [append_log]

/-- Witness for C9: a PDF read that raises aborts the run with the counters
of a fresh session intact. -/
theorem c9_witness :
    extract_text_from_pdf (.exn "EOF marker not found") = "" ∧
    (run_workflow ⟨true, .exn "EOF marker not found", plainGenAI, plainGenAI,
        fun _ => plainGenAI, plainGenAI, fun _ => .delivered, "", "Remote"⟩
      init_session_state).records = [] ∧
    (run_workflow ⟨true, .exn "EOF marker not found", plainGenAI, plainGenAI,
        fun _ => plainGenAI, plainGenAI, fun _ => .delivered, "", "Remote"⟩
      init_session_state).state.successful_dispatches = 0 :=
  ⟨c9_extraction_failure_aborts.1 "EOF marker not found",
   (c9_extraction_failure_aborts.2 ⟨true, .exn "EOF marker not found", plainGenAI, plainGenAI,
      fun _ => plainGenAI, plainGenAI, fun _ => .delivered, "", "Remote"⟩
      init_session_state rfl rfl).1,
   (c9_extraction_failure_aborts.2 ⟨true, .exn "EOF marker not found", plainGenAI, plainGenAI,
      fun _ => plainGenAI, plainGenAI, fun _ => .delivered, "", "Remote"⟩
      init_session_state rfl rfl).2.2.1⟩
